import Mathlib

/-!
# FreeNAS passdb and idmap backends

A shallow embedding of `source3/passdb/pdb_freenas.c` and
`source3/winbindd/idmap_freenas.c`: the synchronous dispatcher call wrapper,
the point lookups, the paginated search iterator, the group membership query
and the batch id/SID translation.

Decoded JSON values are an inductive type, C pointers that may be `NULL` are
`Option`s, and everything the two files obtain from outside (the dispatcher
library, the local account database, the passdb helpers of the host) is a
field of the record `Host`.
-/

set_option linter.unusedVariables false

/-! ## C integers -/

/-- Conversion of an integer value to a 32-bit `int` (two's complement wrap). -/
def c_int (v : Int) : Int := (v + 2147483648) % 4294967296 - 2147483648

/-- Conversion of an integer value to `uint32_t` (`uid_t`, `gid_t`, RIDs). -/
def c_uint32 (v : Int) : Nat := (v % 4294967296).toNat

/-- The errno value `ENOENT`. -/
def ENOENT : Int := 2

/-! ## JSON values (jansson) -/

/-- A decoded JSON value. Reals are kept uninterpreted: no accessor used by
the two files reads them. -/
inductive json_t where
  | null
  | boolean (value : Bool)
  | integer (value : Int)
  | real (text : String)
  | string (value : String)
  | array (items : List json_t)
  | object (fields : List (String × json_t))

/-- The C function `json_object_get`: the member stored under `key`, `NULL`
when the value is `NULL`, not an object, or has no such member. -/
def json_object_get (json : Option json_t) (key : String) : Option json_t :=
  match json with
  | some (json_t.object fields) => fields.lookup key
  | _ => none

/-- The C function `json_integer_value`: the integer, 0 when the value is not an integer. -/
def json_integer_value (json : Option json_t) : Int :=
  match json with
  | some (json_t.integer v) => v
  | _ => 0

/-- The C function `json_string_value`: the string, `NULL` when the value is not a string. -/
def json_string_value (json : Option json_t) : Option String :=
  match json with
  | some (json_t.string s) => some s
  | _ => none

/-- The C function `json_array_size`: number of elements, 0 when the value is not an array. -/
def json_array_size (json : Option json_t) : Nat :=
  match json with
  | some (json_t.array items) => items.length
  | _ => 0

/-- The C function `json_array_get`: element at `index`, `NULL` when out of
range or when the value is not an array. -/
def json_array_get (json : Option json_t) (index : Nat) : Option json_t :=
  match json with
  | some (json_t.array items) => items.get? index
  | _ => none

/-- The C function `json_is_null`: false for a `NULL` pointer. -/
def json_is_null (json : Option json_t) : Bool :=
  match json with
  | some json_t.null => true
  | _ => false

/-- The C function `json_is_array`: false for a `NULL` pointer. -/
def json_is_array (json : Option json_t) : Bool :=
  match json with
  | some (json_t.array _) => true
  | _ => false

/-- The elements `json_array_foreach` visits, in index order: those of an
array, none for any other value or a `NULL` pointer. -/
def json_array_items (json : Option json_t) : List json_t :=
  match json with
  | some (json_t.array items) => items
  | _ => []

/-- The call `json_pack("[sb]", s, b)`; packing a `NULL` string fails and gives `NULL`. -/
def json_pack_sb (s : Option String) (b : Bool) : Option json_t :=
  match s with
  | some str => some (json_t.array [json_t.string str, json_t.boolean b])
  | none => none

/-- The call `json_pack("[ib]", i, b)`: the variadic argument is read as an `int`. -/
def json_pack_ib (i : Int) (b : Bool) : Option json_t :=
  some (json_t.array [json_t.integer (c_int i), json_t.boolean b])

/-- The call `json_pack("[si]", s, i)` with a string literal `s`. -/
def json_pack_si (s : String) (i : Int) : json_t :=
  json_t.array [json_t.string s, json_t.integer (c_int i)]

/-- The call `json_pack("[o]", value)`. -/
def json_pack_o (value : json_t) : Option json_t :=
  some (json_t.array [value])

/-- The call `json_pack("[[][]b]", b)`. -/
def json_pack_query (b : Bool) : Option json_t :=
  some (json_t.array [json_t.array [], json_t.array [], json_t.boolean b])

/-! ## Dispatcher library and host types -/

/-- Status of an RPC call as reported by the dispatcher library. The header
`dispatcher.h` is not part of the two files; the three statuses they name are
constructors, every other status is `RPC_CALL_OTHER`. -/
inductive rpc_call_status where
  | RPC_CALL_DONE
  | RPC_CALL_ERROR
  | RPC_CALL_MORE_AVAILABLE
  | RPC_CALL_OTHER (code : Nat)
  deriving DecidableEq, Repr

/-- An open connection; `closes` counts the `dispatcher_close` calls made on it. -/
structure connection_t where
  closes : Nat
  deriving DecidableEq, Repr

/-- A streaming call handle: the result currently attached to it, the pages the
daemon has still to deliver, and the number of `rpc_call_free` calls made on it. -/
structure rpc_call_t where
  result : Option json_t
  pending : List json_t
  frees : Nat

/-- The C function `dispatcher_close`. -/
def dispatcher_close (conn : connection_t) : connection_t :=
  { conn with closes := conn.closes + 1 }

/-- The C function `rpc_call_free`. -/
def rpc_call_free (call : rpc_call_t) : rpc_call_t :=
  { call with frees := call.frees + 1 }

/-- The C function `rpc_call_result`. -/
def rpc_call_result (call : rpc_call_t) : Option json_t := call.result

/-- The C function `rpc_call_continue(call, true)`: blocks until the daemon
delivers the next page (`RPC_CALL_MORE_AVAILABLE`, the page becomes the result
of the call) or the stream has ended (`RPC_CALL_DONE`). -/
def rpc_call_continue (call : rpc_call_t) : rpc_call_status × rpc_call_t :=
  match call.pending with
  | page :: rest =>
    (rpc_call_status.RPC_CALL_MORE_AVAILABLE, { call with result := some page, pending := rest })
  | [] => (rpc_call_status.RPC_CALL_DONE, call)

/-- The NT status codes the two files return or test. -/
inductive NTSTATUS where
  | NT_STATUS_OK
  | NT_STATUS_UNSUCCESSFUL
  | NT_STATUS_NO_SUCH_USER
  | NT_STATUS_NO_SUCH_GROUP
  | NT_STATUS_NOT_IMPLEMENTED
  | NT_STATUS_OTHER (code : Nat)
  deriving DecidableEq, Repr

/-- The macro `NT_STATUS_IS_OK`. -/
def NT_STATUS_IS_OK (s : NTSTATUS) : Bool := s == NTSTATUS.NT_STATUS_OK

/-- A security identifier: revision, identifier authority, sub-authorities. -/
structure dom_sid where
  sid_rev_num : Nat
  id_auth : Nat
  sub_auths : List Nat
  deriving DecidableEq, Repr

/-- The C function `dom_sid_equal`. -/
def dom_sid_equal (a b : dom_sid) : Bool := a == b

/-- The `struct passwd` record as filled by `build_sam_account`. -/
structure passwd where
  pw_name : Option String
  pw_passwd : Option String
  pw_uid : Nat
  pw_gecos : Option String
  pw_dir : Option String
  pw_shell : Option String
  deriving DecidableEq, Repr

/-- The fields of `struct samu` the file reads or writes. -/
structure samu where
  username : Option String
  full_name : Option String
  user_sid : dom_sid
  nt_pw : Option (List Nat)
  lm_pw : Option (List Nat)
  pass_last_set_time : Option Int
  acct_ctrl : Nat
  deriving DecidableEq, Repr

/-- The C function `pdb_get_user_sid`. -/
def pdb_get_user_sid (sam : samu) : dom_sid := sam.user_sid

/-- The `GROUP_MAP` record. -/
structure GROUP_MAP where
  gid : Nat
  nt_name : Option String
  sid_name_use : Nat
  sid : dom_sid
  deriving DecidableEq, Repr

/-- The `struct samr_displayentry` record. -/
structure samr_displayentry where
  idx : Nat
  rid : Nat
  acct_flags : Nat
  account_name : Option String
  fullname : Option String
  description : Option String
  deriving DecidableEq, Repr

/-- The account flag `ACB_NORMAL`. -/
def ACB_NORMAL : Nat := 16

/-- The constant `SID_NAME_DOM_GRP`. -/
def SID_NAME_DOM_GRP : Nat := 2

/-- The constant `DOMAIN_RID_GUEST`, the well-known guest RID. -/
def DOMAIN_RID_GUEST : Nat := 501

/-- The constant `NT_HASH_LEN`. -/
def NT_HASH_LEN : Nat := 16

/-- The constant `LM_HASH_LEN`. -/
def LM_HASH_LEN : Nat := 16

/-- The C function `talloc_strdup`: `NULL` for a `NULL` source, a copy otherwise (memory
exhaustion is outside the model). -/
def talloc_strdup (s : Option String) : Option String := s

/-- Kind tag of a unix id (`enum id_type`). -/
inductive id_type where
  | ID_TYPE_NOT_SPECIFIED
  | ID_TYPE_UID
  | ID_TYPE_GID
  | ID_TYPE_BOTH
  deriving DecidableEq, Repr

/-- Resolution status of an id-map entry (`enum id_mapping`). -/
inductive id_mapping where
  | ID_UNKNOWN
  | ID_MAPPED
  | ID_UNMAPPED
  | ID_EXPIRED
  deriving DecidableEq, Repr

/-- The `struct unixid` record. -/
structure unixid where
  id : Nat
  type : id_type
  deriving DecidableEq, Repr

/-- The `struct id_map` record. -/
structure id_map where
  sid : dom_sid
  xid : unixid
  status : id_mapping
  deriving DecidableEq, Repr

/-- Everything the two files call but do not define: the dispatcher library,
site configuration, the local account database and the passdb helpers. -/
structure Host where
  /-- The C function `dispatcher_open(url)`: does the connection come up. -/
  dispatcher_open : String → Bool
  /-- The C function `dispatcher_call_sync(conn, method, args, result)`: the
  call status and the value left in `*result`, given the value `*result` held
  before. -/
  dispatcher_call_sync : String → Option json_t → Option json_t → rpc_call_status × Option json_t
  /-- The C function `dispatcher_call_sync_ex(conn, method, args)`: the
  streaming call handle, `NULL` on failure. -/
  dispatcher_call_sync_ex : String → Option json_t → Option rpc_call_t
  /-- The C function `get_global_sam_sid()`. -/
  get_global_sam_sid : dom_sid
  /-- The C function `sid_peek_check_rid(domain, sid, &rid)`: the RID when
  `sid` lies in `domain`. -/
  sid_peek_check_rid : dom_sid → dom_sid → Option Nat
  /-- The C function `sid_compose(&sid, domain, rid)`. -/
  sid_compose : dom_sid → Nat → dom_sid
  /-- The C function `algorithmic_pdb_rid_is_user`. -/
  algorithmic_pdb_rid_is_user : Nat → Bool
  /-- The C function `algorithmic_pdb_user_rid_to_uid`. -/
  algorithmic_pdb_user_rid_to_uid : Nat → Nat
  /-- The C function `algorithmic_pdb_uid_to_user_rid`. -/
  algorithmic_pdb_uid_to_user_rid : Nat → Nat
  /-- The C function `algorithmic_pdb_gid_to_group_rid`. -/
  algorithmic_pdb_gid_to_group_rid : Nat → Nat
  /-- The C function `pdb_group_rid_to_gid`. -/
  pdb_group_rid_to_gid : Nat → Nat
  /-- The C function `lp_guest_account()`. -/
  lp_guest_account : Option String
  /-- The C function `samu_set_unix(sam, pwd)`: status and the account it leaves behind. -/
  samu_set_unix : samu → passwd → NTSTATUS × samu
  /-- The C function `pdb_set_nt_passwd(sam, hash, PDB_SET)`. -/
  pdb_set_nt_passwd : samu → List Nat → Bool × samu
  /-- The C function `pdb_set_lanman_passwd(sam, hash, PDB_SET)`. -/
  pdb_set_lanman_passwd : samu → List Nat → Bool × samu
  /-- The `len` bytes left in the hash buffer by the loop of
  `sscanf(str + 2 * i, "%02X", &hash[i])`. -/
  sscanf_hex : Nat → String → List Nat
  /-- The value `mktime(rpc_json_to_timestamp(value))`, `NULL` when the timestamp does
  not decode. -/
  rpc_json_to_timestamp : Option json_t → Option Int
  /-- The test `getpwnam(name) != NULL`: the account database of the system
  has a user of that name. -/
  getpwnam : Option String → Bool
  /-- The test `getgrnam(name) != NULL`: the local group database has a group of
  that name. Neither file consults it. -/
  getgrnam : Option String → Bool
  /-- The C function `dom_sid_parse(str, sid)`: the value left in `*sid`, given
  its old value. -/
  dom_sid_parse : Option String → dom_sid → dom_sid
  /-- The C function `dom_sid_string_buf(sid, buf, sizeof(buf))`. -/
  dom_sid_string_buf : dom_sid → String

/-- What one `call_dispatcher` invocation leaves behind: the return value, the
value of `*result`, and the requests that went out over the connection. -/
structure dispatch_outcome where
  ret : Int
  result : Option json_t
  sent : List (String × Option json_t)

/-- The fixed endpoint of the directory-cache daemon. -/
def dscached_socket : String := "unix:///var/run/dscached.sock"

namespace pdb_freenas

/-- The function `call_dispatcher` of `pdb_freenas.c`; `result` is the value
the variable of the caller holds on entry. -/
def call_dispatcher (h : Host) (method : String) (args : Option json_t)
    (result : Option json_t) : dispatch_outcome :=
  if h.dispatcher_open dscached_socket = false then
    { ret := -1, result := result, sent := [] }
  else
    let reply := h.dispatcher_call_sync method args result
    let err := reply.1
    let sent := [(method, args)]
    if err = rpc_call_status.RPC_CALL_ERROR ∧
        c_int (json_integer_value (json_object_get reply.2 "code")) = ENOENT then
      { ret := 0, result := some json_t.null, sent := sent }
    else if err ≠ rpc_call_status.RPC_CALL_DONE then
      { ret := -1, result := reply.2, sent := sent }
    else
      { ret := 0, result := reply.2, sent := sent }

/-- The function `call_dispatcher_stream`: opens the connection and starts the
streaming call; on success the call handle, its first result and the still
open connection. -/
def call_dispatcher_stream (h : Host) (method : String) (args : Option json_t) :
    Option (rpc_call_t × Option json_t × connection_t) :=
  if h.dispatcher_open dscached_socket = false then
    none
  else
    match h.dispatcher_call_sync_ex method args with
    | none => none
    | some call => some (call, rpc_call_result call, { closes := 0 })

/-- The function `build_sam_account`: whether the account was built, and the
account as it is left. -/
def build_sam_account (h : Host) (sam_pass : samu) (user : Option json_t) : Bool × samu :=
  match user with
  | none => (false, sam_pass)
  | some _ =>
    let pwd : passwd :=
      { pw_uid := c_uint32 (json_integer_value (json_object_get user "uid"))
        pw_name := json_string_value (json_object_get user "username")
        pw_gecos := json_string_value (json_object_get user "full_name")
        pw_passwd :=
          match json_string_value (json_object_get user "unixhash") with
          | some p => some p
          | none => some "*"
        pw_shell := json_string_value (json_object_get user "shell")
        pw_dir := json_string_value (json_object_get user "home") }
    let set_unix := h.samu_set_unix sam_pass pwd
    if NT_STATUS_IS_OK set_unix.1 = false then
      (false, set_unix.2)
    else
      let nt : Bool × samu :=
        match json_string_value (json_object_get user "nthash") with
        | some str => h.pdb_set_nt_passwd set_unix.2 (h.sscanf_hex NT_HASH_LEN str)
        | none => (true, set_unix.2)
      if nt.1 = false then
        (false, nt.2)
      else
        let lm : Bool × samu :=
          match json_string_value (json_object_get user "lmhash") with
          | some str => h.pdb_set_lanman_passwd nt.2 (h.sscanf_hex LM_HASH_LEN str)
          | none => (true, nt.2)
        if lm.1 = false then
          (false, lm.2)
        else
          let timed : samu :=
            match h.rpc_json_to_timestamp (json_object_get user "password_changed_at") with
            | some t => { lm.2 with pass_last_set_time := some t }
            | none => lm.2
          (true, { timed with acct_ctrl := ACB_NORMAL })

/-- The function `build_group`. -/
def build_group (h : Host) (map : GROUP_MAP) (group : Option json_t) : Bool × GROUP_MAP :=
  match group with
  | none => (false, map)
  | some _ =>
    let gid := c_uint32 (json_integer_value (json_object_get group "gid"))
    (true,
      { gid := gid
        nt_name := talloc_strdup (json_string_value (json_object_get group "name"))
        sid_name_use := SID_NAME_DOM_GRP
        sid := h.sid_compose h.get_global_sam_sid (h.algorithmic_pdb_gid_to_group_rid gid) })

/-- Outcome of a user lookup: the status, the account record as it is left, and
the requests sent to the daemon. -/
structure sam_lookup where
  status : NTSTATUS
  sam_acct : samu
  sent : List (String × Option json_t)

/-- Outcome of a group lookup. -/
structure group_lookup where
  status : NTSTATUS
  map : GROUP_MAP
  sent : List (String × Option json_t)

/-- The function `freenas_getsampwnam`; `result` is the indeterminate initial
value of the local of that name. -/
def freenas_getsampwnam (h : Host) (sam_acct : samu) (username : String)
    (result : Option json_t) : sam_lookup :=
  let nt_status := NTSTATUS.NT_STATUS_UNSUCCESSFUL
  let r := call_dispatcher h "dscached.account.getpwnam" (json_pack_sb (some username) true) result
  if r.ret ≠ 0 then
    { status := nt_status, sam_acct := sam_acct, sent := r.sent }
  else if json_is_null r.result then
    { status := nt_status, sam_acct := sam_acct, sent := r.sent }
  else
    let built := build_sam_account h sam_acct r.result
    if built.1 = false then
      { status := nt_status, sam_acct := built.2, sent := r.sent }
    else
      { status := NTSTATUS.NT_STATUS_OK, sam_acct := built.2, sent := r.sent }

/-- The function `freenas_getsampwsid`; `result` is the indeterminate initial
value of the local of that name. -/
def freenas_getsampwsid (h : Host) (sam_acct : samu) (sid : dom_sid)
    (result : Option json_t) : sam_lookup :=
  let nt_status := NTSTATUS.NT_STATUS_UNSUCCESSFUL
  match h.sid_peek_check_rid h.get_global_sam_sid sid with
  | none => { status := NTSTATUS.NT_STATUS_UNSUCCESSFUL, sam_acct := sam_acct, sent := [] }
  | some rid =>
    if h.algorithmic_pdb_rid_is_user rid = false then
      { status := NTSTATUS.NT_STATUS_NO_SUCH_USER, sam_acct := sam_acct, sent := [] }
    else if rid = DOMAIN_RID_GUEST then
      match h.lp_guest_account with
      | none => { status := nt_status, sam_acct := sam_acct, sent := [] }
      | some guest_account =>
        if guest_account = "" then
          { status := nt_status, sam_acct := sam_acct, sent := [] }
        else
          freenas_getsampwnam h sam_acct guest_account result
    else
      let r := call_dispatcher h "dscached.account.getpwuid"
        (json_pack_ib (h.algorithmic_pdb_user_rid_to_uid rid) true) result
      if r.ret ≠ 0 then
        { status := nt_status, sam_acct := sam_acct, sent := r.sent }
      else if json_is_null r.result then
        { status := NTSTATUS.NT_STATUS_NO_SUCH_USER, sam_acct := sam_acct, sent := r.sent }
      else
        let built := build_sam_account h sam_acct r.result
        if built.1 = false then
          { status := nt_status, sam_acct := built.2, sent := r.sent }
        else if NT_STATUS_IS_OK nt_status = true ∧
            dom_sid_equal (pdb_get_user_sid built.2) sid = false then
          { status := NTSTATUS.NT_STATUS_NO_SUCH_USER, sam_acct := built.2, sent := r.sent }
        else
          { status := NTSTATUS.NT_STATUS_OK, sam_acct := built.2, sent := r.sent }

/-- The function `freenas_getgrnam`. -/
def freenas_getgrnam (h : Host) (map : GROUP_MAP) (name : String)
    (result : Option json_t) : group_lookup :=
  let nt_status := NTSTATUS.NT_STATUS_UNSUCCESSFUL
  let r := call_dispatcher h "dscached.group.getgrnam" (json_pack_sb (some name) true) result
  if r.ret ≠ 0 then
    { status := nt_status, map := map, sent := r.sent }
  else if json_is_null r.result then
    { status := nt_status, map := map, sent := r.sent }
  else
    let built := build_group h map r.result
    if built.1 = false then
      { status := nt_status, map := built.2, sent := r.sent }
    else
      { status := NTSTATUS.NT_STATUS_OK, map := built.2, sent := r.sent }

/-- The function `freenas_convert_user`: the verdict and the entry as filled. -/
def freenas_convert_user (h : Host) (user : Option json_t) (entry : samr_displayentry) :
    Bool × samr_displayentry :=
  (true,
    { entry with
      rid := h.algorithmic_pdb_uid_to_user_rid
        (c_uint32 (json_integer_value (json_object_get user "uid")))
      acct_flags := ACB_NORMAL
      account_name := talloc_strdup (json_string_value (json_object_get user "username"))
      fullname := talloc_strdup (json_string_value (json_object_get user "full_name"))
      description := talloc_strdup (some "description") })

/-- The function `freenas_convert_group`: the verdict and the entry as filled. -/
def freenas_convert_group (h : Host) (group : Option json_t) (entry : samr_displayentry) :
    Bool × samr_displayentry :=
  let name := json_string_value (json_object_get group "name")
  if h.getpwnam name = true then
    (false, entry)
  else
    (true,
      { entry with
        rid := h.algorithmic_pdb_gid_to_group_rid
          (c_uint32 (json_integer_value (json_object_get group "gid")))
        account_name := talloc_strdup name
        fullname := talloc_strdup name
        description := talloc_strdup (some "description") })

/-- The record `struct freenas_search_state`. -/
structure freenas_search_state where
  callback : Option json_t → samr_displayentry → Bool × samr_displayentry
  conn : connection_t
  call : rpc_call_t
  users : Option json_t
  position : Nat

/-- The function `freenas_search_end`: `json_decref(state->users)` and
`TALLOC_FREE(state)` touch neither the connection nor the call handle, which
are returned as the session leaves them. -/
def freenas_search_end (state : freenas_search_state) : connection_t × rpc_call_t :=
  (state.conn, state.call)

/-- First block of `freenas_search_next_entry`: when the page is used up, ask
for the next one; `none` when the daemon has no further page. -/
def search_refill (state : freenas_search_state) : Option freenas_search_state :=
  if state.position ≥ json_array_size state.users then
    if (rpc_call_continue state.call).1 ≠ rpc_call_status.RPC_CALL_MORE_AVAILABLE then
      none
    else
      some { state with
        call := (rpc_call_continue state.call).2
        users := rpc_call_result (rpc_call_continue state.call).2
        position := 0 }
  else
    some state

/-- The function `freenas_search_next_entry`: the return value, the entry as
filled, and the search state as left. The `goto repeat` is the recursive call. -/
def freenas_search_next_entry (state : freenas_search_state) (entry : samr_displayentry) :
    Bool × samr_displayentry × freenas_search_state :=
  match hr : search_refill state with
  | none =>
    (false, entry,
      { state with
        call := rpc_call_free (rpc_call_continue state.call).2
        conn := dispatcher_close state.conn })
  | some st =>
    let item := json_array_get st.users st.position
    let converted := st.callback item { entry with idx := st.position }
    if converted.1 = false then
      freenas_search_next_entry { st with position := st.position + 1 } converted.2
    else if converted.2.account_name = none then
      (false, converted.2, st)
    else
      (true, converted.2, { st with position := st.position + 1 })
termination_by (state.call.pending.length, json_array_size state.users - state.position)
decreasing_by
  unfold search_refill at hr
  split at hr
  · split at hr
    · simp at hr
    · rename_i hmore
      simp only [Option.some.injEq] at hr
      subst hr
      apply Prod.Lex.left
      rcases hp : state.call.pending with _ | ⟨page, rest⟩
      · simp [rpc_call_continue, hp] at hmore
      · simp [rpc_call_continue, hp]
  · rename_i hpos
    simp only [Option.some.injEq] at hr
    subst hr
    apply Prod.Lex.right
    omega

/-- The function `freenas_search_users`: `none` when it returns false, the
installed search state otherwise. -/
def freenas_search_users (h : Host) : Option freenas_search_state :=
  match call_dispatcher_stream h "dscached.account.query" (json_pack_query true) with
  | none => none
  | some (call, result, conn) =>
    some
      { conn := conn
        call := call
        users := result
        position := 0
        callback := freenas_convert_user h }

/-- The function `freenas_search_groups`: `none` when it returns false, the
installed search state otherwise. -/
def freenas_search_groups (h : Host) : Option freenas_search_state :=
  match call_dispatcher_stream h "dscached.group.query" (json_pack_query true) with
  | none => none
  | some (call, result, conn) =>
    some
      { conn := conn
        call := call
        users := result
        position := 0
        callback := freenas_convert_group h }

/-- A consumer that calls `next_entry` until it returns false, at most `calls`
times: the entries handed out, and the state after the last call made. -/
def search_consume (calls : Nat) (state : freenas_search_state) (entry : samr_displayentry) :
    List samr_displayentry × freenas_search_state :=
  match calls with
  | 0 => ([], state)
  | n + 1 =>
    let r := freenas_search_next_entry state entry
    if r.1 = true then
      ((r.2.1 :: (search_consume n r.2.2 r.2.1).1), (search_consume n r.2.2 r.2.1).2)
    else
      ([], r.2.2)

/-- Modelled from the spec: `add_gid_to_array_unique` is a helper of the host
that is not among the sources; section 4.4 describes it as accumulation with
duplicate suppression ("add unique"): the gid is appended unless present. -/
def add_gid_to_array_unique (gid : Nat) (gids : List Nat) : List Nat :=
  if gid ∈ gids then gids else gids ++ [gid]

/-- Modelled from the spec: `add_sid_to_array_unique` is a helper of the host
that is not among the sources; section 4.4 describes it as accumulation with
duplicate suppression ("add unique"): the SID is appended unless present. -/
def add_sid_to_array_unique (sid : dom_sid) (sids : List dom_sid) : List dom_sid :=
  if sid ∈ sids then sids else sids ++ [sid]

/-- Outputs of `freenas_enum_group_memberships`. -/
structure group_memberships where
  status : NTSTATUS
  pp_sids : List dom_sid
  pp_gids : List Nat
  p_num_groups : Nat
  sent : List (String × Option json_t)

/-- Body of the `json_array_foreach` loop of `freenas_enum_group_memberships`:
one item added to the SID and gid arrays. -/
def enum_group_step (h : Host) (acc : List dom_sid × List Nat) (item : json_t) :
    List dom_sid × List Nat :=
  let gid : Int := c_int (json_integer_value (some item))
  let sid := h.sid_compose h.get_global_sam_sid
    (h.algorithmic_pdb_gid_to_group_rid (c_uint32 gid))
  (add_sid_to_array_unique sid acc.1, add_gid_to_array_unique (c_uint32 gid) acc.2)

/-- The function `freenas_enum_group_memberships`; `result` is the
indeterminate initial value of the local of that name. -/
def freenas_enum_group_memberships (h : Host) (user : samu) (result : Option json_t) :
    group_memberships :=
  let nt_status := NTSTATUS.NT_STATUS_UNSUCCESSFUL
  let r := call_dispatcher h "dscached.account.getgroupmembership"
    (json_pack_sb user.username true) result
  if r.ret ≠ 0 then
    { status := nt_status, pp_sids := [], pp_gids := [], p_num_groups := 0, sent := r.sent }
  else if (json_is_null r.result || !json_is_array r.result) = true then
    { status := NTSTATUS.NT_STATUS_OK, pp_sids := [], pp_gids := [], p_num_groups := 0,
      sent := r.sent }
  else
    let acc := (json_array_items r.result).foldl (enum_group_step h) ([], [])
    { status := NTSTATUS.NT_STATUS_OK, pp_sids := acc.1, pp_gids := acc.2,
      p_num_groups := acc.2.length, sent := r.sent }

end pdb_freenas

namespace idmap_freenas

/-- The function `call_dispatcher` of `idmap_freenas.c` (the same text as in `pdb_freenas.c`). -/
def call_dispatcher (h : Host) (method : String) (args : Option json_t)
    (result : Option json_t) : dispatch_outcome :=
  if h.dispatcher_open dscached_socket = false then
    { ret := -1, result := result, sent := [] }
  else
    let reply := h.dispatcher_call_sync method args result
    let err := reply.1
    let sent := [(method, args)]
    if err = rpc_call_status.RPC_CALL_ERROR ∧
        c_int (json_integer_value (json_object_get reply.2 "code")) = ENOENT then
      { ret := 0, result := some json_t.null, sent := sent }
    else if err ≠ rpc_call_status.RPC_CALL_DONE then
      { ret := -1, result := reply.2, sent := sent }
    else
      { ret := 0, result := reply.2, sent := sent }


/-- Outcome of a batch translation: the status, the entries as left, and the
requests sent to the daemon. -/
structure idmap_outcome where
  status : NTSTATUS
  ids : List id_map
  sent : List (String × Option json_t)

/-- The function `idmap_freenas_initialize`. -/
def idmap_freenas_initialize : NTSTATUS := NTSTATUS.NT_STATUS_OK

/-- The request pair appended for one entry by the `switch` of
`idmap_freenas_unixids_to_sids`; nothing is appended in the `default` case. -/
def unixid_request (m : id_map) : Option json_t :=
  match m.xid.type with
  | id_type.ID_TYPE_UID => some (json_pack_si "UID" m.xid.id)
  | id_type.ID_TYPE_GID => some (json_pack_si "GID" m.xid.id)
  | _ => none

/-- The array `uids` built by the second loop of `idmap_freenas_unixids_to_sids`. -/
def unixids_request (ids : List id_map) : json_t :=
  json_t.array (ids.filterMap unixid_request)

/-- Body of the response loop of `idmap_freenas_unixids_to_sids`; `none` when
`ids[index]` is the `NULL` terminator or lies beyond it. -/
def unixids_store (h : Host) (acc : Option (List id_map)) (iv : Nat × json_t) :
    Option (List id_map) :=
  match acc with
  | none => none
  | some ids =>
    match ids.get? iv.1 with
    | none => none
    | some m =>
      some (ids.set iv.1
        { m with
          sid := h.dom_sid_parse (json_string_value (some iv.2)) m.sid
          status := id_mapping.ID_MAPPED })

/-- The function `idmap_freenas_unixids_to_sids` on the entries before the
`NULL` terminator; `result` is the indeterminate initial value of the local of
that name. `none` when the response loop runs past the last entry. -/
def idmap_freenas_unixids_to_sids (h : Host) (ids : List id_map) (result : Option json_t) :
    Option idmap_outcome :=
  let ids1 := ids.map (fun m => { m with status := id_mapping.ID_UNKNOWN })
  let uids := unixids_request ids1
  let r := call_dispatcher h "dscached.idmap.unixids_to_sids" (json_pack_o uids) result
  match (json_array_items r.result).enum.foldl (unixids_store h) (some ids1) with
  | none => none
  | some ids2 => some { status := NTSTATUS.NT_STATUS_OK, ids := ids2, sent := r.sent }

/-- The call `json_unpack(value, "[si]", &type, &id)`: the values of `type` and
`id` afterwards, given their values before; a target is written only when the
elements before it and its own element have the expected type. -/
def json_unpack_si (value : json_t) (type0 : String) (id0 : Int) : String × Int :=
  match value with
  | json_t.array (json_t.string s :: json_t.integer i :: _) => (s, c_int i)
  | json_t.array (json_t.string s :: _) => (s, id0)
  | _ => (type0, id0)

/-- Body of the response loop of `idmap_freenas_sids_to_unixids`, on the
entries together with the values the locals `type` and `id` hold on entry to
the iteration: a failed `json_unpack` leaves them as the previous iteration
left them. `none` when `ids[index]` is the `NULL` terminator or lies beyond it. -/
def sids_store (acc : Option (List id_map × String × Int)) (iv : Nat × json_t) :
    Option (List id_map × String × Int) :=
  match acc with
  | none => none
  | some (ids, type0, id0) =>
    match ids.get? iv.1 with
    | none => none
    | some m =>
      let unpacked := json_unpack_si iv.2 type0 id0
      let type := unpacked.1
      let kind :=
        if type = "UID" then id_type.ID_TYPE_UID
        else if type = "GID" then id_type.ID_TYPE_GID
        else if type = "BOTH" then id_type.ID_TYPE_BOTH
        else id_type.ID_TYPE_NOT_SPECIFIED
      some (ids.set iv.1
        { m with
          xid := { id := c_uint32 unpacked.2, type := kind }
          status := id_mapping.ID_MAPPED }, unpacked.1, unpacked.2)

/-- The function `idmap_freenas_sids_to_unixids` on the entries before the
`NULL` terminator; `result`, `type0` and `id0` are the indeterminate initial
values of the locals `result`, `type` and `id`. -/
def idmap_freenas_sids_to_unixids (h : Host) (ids : List id_map) (result : Option json_t)
    (type0 : String) (id0 : Int) : Option idmap_outcome :=
  let ids1 := ids.map (fun m => { m with status := id_mapping.ID_UNKNOWN })
  let sids := json_t.array (ids1.map (fun m => json_t.string (h.dom_sid_string_buf m.sid)))
  let r := call_dispatcher h "dscached.idmap.sids_to_unixids" (json_pack_o sids) result
  match (json_array_items r.result).enum.foldl sids_store (some (ids1, type0, id0)) with
  | none => none
  | some final => some { status := NTSTATUS.NT_STATUS_OK, ids := final.1, sent := r.sent }

/-- The function `idmap_freenas_allocate_id`. -/
def idmap_freenas_allocate_id : NTSTATUS := NTSTATUS.NT_STATUS_NOT_IMPLEMENTED

end idmap_freenas


/-! ## An example host

The mapper, the classifier and the SID helpers of the host are not among the
sources, and the specification gives no formula for them: they are fields of
`Host`, and the general statements hold for every `Host`. The definitions of
this section describe one particular host, used to instantiate the general
statements at concrete inputs (default `algorithmic rid base`, machine SID
with four sub-authorities). -/

namespace samba

/-- Example mapper, user direction: the RID of a uid is `uid * 2 + 1000` with
the low bit clear, in 32-bit unsigned arithmetic. It is one mapper a host may
have, not a rendering of any source text; it sends the uids 0 and 2147483648
to the same RID. -/
def algorithmic_pdb_uid_to_user_rid (uid : Nat) : Nat :=
  ((uid * 2 + 1000) % 4294967296) ||| 0

/-- Example mapper, back from a user RID: the low bit is cleared, 1000
subtracted and the result halved, in 32-bit unsigned arithmetic. It undoes the
example user mapping on the uids below 2^31 only. -/
def algorithmic_pdb_user_rid_to_uid (rid : Nat) : Nat :=
  ((rid % 4294967296 + 4294967296 - 1000) % 4294967296) / 2

/-- Example mapper, group direction: the RID of a gid is `gid * 2 + 1000` with
the low bit set, in 32-bit unsigned arithmetic. It is one mapper a host may
have, not a rendering of any source text; it sends the gids 10 and 2147483658
to the same RID. -/
def algorithmic_pdb_gid_to_group_rid (gid : Nat) : Nat :=
  ((gid * 2 + 1000) % 4294967296) ||| 1

/-- Example mapper, back from a group RID: the low bit is cleared, 1000
subtracted and the result halved, in 32-bit unsigned arithmetic. It undoes the
example group mapping on the gids below 2^31 only. -/
def pdb_group_rid_to_gid (rid : Nat) : Nat :=
  (((rid % 4294967296) / 2 * 2 + 4294967296 - 1000) % 4294967296) / 2

/-- Example classifier: below 1000 only the administrator (500) and guest
(501) RIDs are user RIDs, from 1000 on a RID is a user RID when its low bit is
clear. It is one classifier a host may have, not a rendering of any source
text. -/
def algorithmic_pdb_rid_is_user (rid : Nat) : Bool :=
  if rid < 1000 then
    decide (rid = 500 ∨ rid = DOMAIN_RID_GUEST)
  else
    decide (rid % 2 = 0)

/-- Modelled from the spec: `sid_compose` is a helper of the host that is not
among the sources; it appends the RID to the domain SID (section 3: a fixed
domain prefix plus a relative identifier). -/
def sid_compose (domain : dom_sid) (rid : Nat) : dom_sid :=
  { domain with sub_auths := domain.sub_auths ++ [rid] }

/-- Modelled from the spec: `sid_peek_check_rid` is a helper of the host that
is not among the sources; it yields the last sub-authority when the rest of
the SID is the domain SID (section 4.4: extract the RID, fail on a foreign
domain prefix). -/
def sid_peek_check_rid (domain sid : dom_sid) : Option Nat :=
  if sid.sid_rev_num = domain.sid_rev_num ∧ sid.id_auth = domain.id_auth ∧
      sid.sub_auths.dropLast = domain.sub_auths then
    sid.sub_auths.getLast?
  else
    none

/-- Modelled from the spec: `samu_set_unix` is a helper of the host that is
not among the sources; it installs name and full name and derives the user
SID: the guest RID for the configured guest account, the RID computed from the
uid for every other account (section 4.4 and the comment in
`freenas_getsampwsid`). -/
def samu_set_unix (guest : Option String) (domain : dom_sid) (sam : samu) (pwd : passwd) :
    NTSTATUS × samu :=
  let named := { sam with username := pwd.pw_name, full_name := pwd.pw_gecos }
  if pwd.pw_name.isSome = true ∧ pwd.pw_name = guest then
    (NTSTATUS.NT_STATUS_OK, { named with user_sid := sid_compose domain DOMAIN_RID_GUEST })
  else
    (NTSTATUS.NT_STATUS_OK,
      { named with
        user_sid := sid_compose domain (algorithmic_pdb_uid_to_user_rid pwd.pw_uid) })

/-- A machine SID `S-1-5-21-1-2-3`. -/
def machine_sid : dom_sid := { sid_rev_num := 1, id_auth := 5, sub_auths := [21, 1, 2, 3] }

/-- An empty account record. -/
def blank_samu : samu :=
  { username := none, full_name := none
    user_sid := { sid_rev_num := 0, id_auth := 0, sub_auths := [] }
    nt_pw := none, lm_pw := none, pass_last_set_time := none, acct_ctrl := 0 }

/-- An empty display entry. -/
def blank_entry : samr_displayentry :=
  { idx := 0, rid := 0, acct_flags := 0, account_name := none, fullname := none,
    description := none }

/-- The example host in front of a daemon: `up` tells whether the socket accepts
connections, `reply` answers synchronous calls, `stream` is the handle of a
streaming call, `guest` the configured guest account, `users` and
`groups` the names in the local account and group databases and `sid_text` the
textual forms of the SIDs in use. -/
def host (up : Bool) (reply : String → Option json_t → rpc_call_status × Option json_t)
    (stream : Option rpc_call_t) (guest : Option String) (users groups : List String)
    (sid_text : List (String × dom_sid)) : Host :=
  { dispatcher_open := fun _ => up
    dispatcher_call_sync := fun method args _ => reply method args
    dispatcher_call_sync_ex := fun _ _ => stream
    get_global_sam_sid := machine_sid
    sid_peek_check_rid := sid_peek_check_rid
    sid_compose := sid_compose
    algorithmic_pdb_rid_is_user := algorithmic_pdb_rid_is_user
    algorithmic_pdb_user_rid_to_uid := algorithmic_pdb_user_rid_to_uid
    algorithmic_pdb_uid_to_user_rid := algorithmic_pdb_uid_to_user_rid
    algorithmic_pdb_gid_to_group_rid := algorithmic_pdb_gid_to_group_rid
    pdb_group_rid_to_gid := pdb_group_rid_to_gid
    lp_guest_account := guest
    samu_set_unix := samu_set_unix guest machine_sid
    pdb_set_nt_passwd := fun sam hash => (true, { sam with nt_pw := some hash })
    pdb_set_lanman_passwd := fun sam hash => (true, { sam with lm_pw := some hash })
    sscanf_hex := fun len _ => List.replicate len 0
    rpc_json_to_timestamp := fun _ => none
    getpwnam := fun name =>
      match name with
      | some n => decide (n ∈ users)
      | none => false
    getgrnam := fun name =>
      match name with
      | some n => decide (n ∈ groups)
      | none => false
    dom_sid_parse := fun str old =>
      match str with
      | some s => (sid_text.lookup s).getD old
      | none => old
    dom_sid_string_buf := fun sid =>
      match sid_text.find? (fun p => decide (p.2 = sid)) with
      | some p => p.1
      | none => "" }

end samba

/-! ## Scenarios -/

namespace scenario

/-- A user record with the given uid and user name. -/
def user_record (uid : Int) (name : String) : json_t :=
  json_t.object [("uid", json_t.integer uid), ("username", json_t.string name)]

/-- A group record with the given gid and group name. -/
def group_record (gid : Int) (name : String) : json_t :=
  json_t.object [("gid", json_t.integer gid), ("name", json_t.string name)]

/-- An error reply carrying the given code. -/
def error_reply (code : Int) : json_t :=
  json_t.object [("code", json_t.integer code), ("message", json_t.string "error")]

/-- The SID of the machine domain with the given RID. -/
def domain_sid (rid : Nat) : dom_sid := samba.sid_compose samba.machine_sid rid

/-- A daemon that is not listening. -/
def down : Host :=
  samba.host false (fun _ _ => (rpc_call_status.RPC_CALL_OTHER 0, none)) none (some "nobody")
    [] [] []

/-- A daemon that answers every call with an error reply of the given code. -/
def failing (code : Int) : Host :=
  samba.host true (fun _ _ => (rpc_call_status.RPC_CALL_ERROR, some (error_reply code))) none
    (some "nobody") [] [] []

/-- A daemon that answers every call with the given value. -/
def answering (value : json_t) : Host :=
  samba.host true (fun _ _ => (rpc_call_status.RPC_CALL_DONE, some value)) none
    (some "nobody") [] [] []

/-- A daemon that serves a streaming query in the given pages, on a host whose
local account database has the users `users` and the groups `groups`. -/
def streaming (first : json_t) (later : List json_t) (users groups : List String) : Host :=
  samba.host true (fun _ _ => (rpc_call_status.RPC_CALL_OTHER 0, none))
    (some { result := some first, pending := later, frees := 0 }) (some "nobody")
    users groups []

/-- The user record of `alice`, uid 1001. -/
def alice : json_t := user_record 1001 "alice"

/-- The user record of `bob`, uid 1002. -/
def bob : json_t := user_record 1002 "bob"

/-- A user search served in three pages: `alice`, then an empty page, then `bob`. -/
def gap_stream : Host :=
  streaming (json_t.array [alice]) [json_t.array [], json_t.array [bob]] [] []

/-- A user search served in one page holding `alice` and `bob`. -/
def one_page_stream : Host :=
  streaming (json_t.array [alice, bob]) [] [] []

/-- The search state installed by `start`, for a host on which it succeeds. -/
def session (start : Option pdb_freenas.freenas_search_state) :
    pdb_freenas.freenas_search_state :=
  match start with
  | some state => state
  | none =>
    { callback := fun _ e => (false, e), conn := { closes := 0 }
      call := { result := none, pending := [], frees := 0 }, users := none, position := 0 }

/-- The group record of `staff`, gid 20. -/
def staff : json_t := group_record 20 "staff"

/-- The group record of `wheel`, gid 0. -/
def wheel : json_t := group_record 0 "wheel"

/-- The group record of `operator`, gid 5. -/
def operator : json_t := group_record 5 "operator"

/-- A group search serving `staff` and `wheel`, on a host with a local group
`wheel` and no local user of that name. -/
def wheel_stream : Host :=
  streaming (json_t.array [staff, wheel]) [] [] ["wheel"]

/-- A group search serving `staff` and `operator`, on a host with a local user
`operator`. -/
def operator_stream : Host :=
  streaming (json_t.array [staff, operator]) [] ["operator"] []

/-- A membership query answered with the gids 10, 20, 10. -/
def repeated_gids : Host :=
  answering (json_t.array [json_t.integer 10, json_t.integer 20, json_t.integer 10])

/-- An account record named `alice`. -/
def alice_samu : samu := { samba.blank_samu with username := some "alice" }

/-- The textual form used for the domain SID with RID 1014. -/
def sid_1014_text : String := "S-1-5-21-1-2-3-1014"

/-- An id-map daemon that answers every call with the one SID
`S-1-5-21-1-2-3-1014`. -/
def one_sid : Host :=
  samba.host true
    (fun _ _ => (rpc_call_status.RPC_CALL_DONE, some (json_t.array [json_t.string sid_1014_text])))
    none (some "nobody") [] [] [(sid_1014_text, domain_sid 1014)]

/-- An id-map entry of the given kind and id, with an empty SID and status
`ID_UNMAPPED`. -/
def entry_of (kind : id_type) (id : Nat) : id_map :=
  { sid := { sid_rev_num := 0, id_auth := 0, sub_auths := [] }
    xid := { id := id, type := kind }
    status := id_mapping.ID_UNMAPPED }

/-- An id-map entry holding the given SID, with status `ID_UNMAPPED`. -/
def entry_of_sid (sid : dom_sid) : id_map :=
  { sid := sid
    xid := { id := 0, type := id_type.ID_TYPE_NOT_SPECIFIED }
    status := id_mapping.ID_UNMAPPED }

/-- A user search served in three pages of sizes 2, 2 and 1. -/
def three_pages : Host :=
  streaming (json_t.array [user_record 1001 "u1", user_record 1002 "u2"])
    [json_t.array [user_record 1003 "u3", user_record 1004 "u4"],
     json_t.array [user_record 1005 "u5"]] [] []

/-- A membership query answered with the gids 10 and 2147483658, which the
example mapper sends to the same RID. -/
def colliding_gids : Host :=
  answering (json_t.array [json_t.integer 10, json_t.integer 2147483658])

end scenario

/-! ## Notions used in the statements -/

/-- What a consumer reads from a display entry: RID, account name, full name. -/
def display_view (e : samr_displayentry) : Nat × Option String × Option String :=
  (e.rid, e.account_name, e.fullname)

/-- RID, account name and full name converted from a user record: the RID
computed from the `uid` member, the `username` and the `full_name` members. -/
def user_view (h : Host) (user : json_t) : Nat × Option String × Option String :=
  (h.algorithmic_pdb_uid_to_user_rid
      (c_uint32 (json_integer_value (json_object_get (some user) "uid"))),
    json_string_value (json_object_get (some user) "username"),
    json_string_value (json_object_get (some user) "full_name"))

/-- The `name` member of a group record. -/
def group_name (group : json_t) : Option String :=
  json_string_value (json_object_get (some group) "name")

/-- RID, account name and full name converted from a group record: the RID
computed from the `gid` member, and the `name` member twice. -/
def group_view (h : Host) (group : json_t) : Nat × Option String × Option String :=
  (h.algorithmic_pdb_gid_to_group_rid
      (c_uint32 (json_integer_value (json_object_get (some group) "gid"))),
    group_name group, group_name group)

/-- The gid read from one item of the membership response:
`int gid = json_integer_value(item)`, passed on as a `gid_t`. For a JSON
integer in the range of `gid_t` it is that integer. -/
def json_gid (item : json_t) : Nat :=
  c_uint32 (c_int (json_integer_value (some item)))

/-- The group SID computed from a gid: the domain SID composed with the group
RID of the gid. -/
def group_sid (h : Host) (gid : Nat) : dom_sid :=
  h.sid_compose h.get_global_sam_sid (h.algorithmic_pdb_gid_to_group_rid gid)

/-- The distinct elements of a list in the order of their first occurrence. -/
def first_occurrences {α : Type} [DecidableEq α] : List α → List α
  | [] => []
  | x :: xs => x :: (first_occurrences xs).filter (fun y => decide (y ≠ x))

/-- The first loop of the batch translations: every status set to `ID_UNKNOWN`. -/
def reset_status (ids : List id_map) : List id_map :=
  ids.map (fun m => { m with status := id_mapping.ID_UNKNOWN })

/-- An entry after the response loop of `idmap_freenas_unixids_to_sids` has
stored the response element `value` into it. -/
def stored_sid (h : Host) (m : id_map) (value : json_t) : id_map :=
  { m with
    sid := h.dom_sid_parse (json_string_value (some value)) m.sid
    status := id_mapping.ID_MAPPED }

/-- The error code `call_dispatcher` reads from an error reply. -/
def rpc_error_code (reply : Option json_t) : Int :=
  c_int (json_integer_value (json_object_get reply "code"))

/-- The contract C1 states for one copy of `call_dispatcher`: it returns 0 or
-1, and 0 exactly when the connection opened and the call ended with
`RPC_CALL_DONE` (result: the response) or with `RPC_CALL_ERROR` carrying code
`ENOENT` (result: JSON null). -/
def dispatcher_contract
    (f : Host → String → Option json_t → Option json_t → dispatch_outcome) : Prop :=
  ∀ (h : Host) (method : String) (args result : Option json_t),
    ((f h method args result).ret = 0 ∨ (f h method args result).ret = -1) ∧
    ((f h method args result).ret = 0 ↔
      (h.dispatcher_open dscached_socket = true ∧
        ((h.dispatcher_call_sync method args result).1 = rpc_call_status.RPC_CALL_DONE ∨
         ((h.dispatcher_call_sync method args result).1 = rpc_call_status.RPC_CALL_ERROR ∧
          rpc_error_code (h.dispatcher_call_sync method args result).2 = ENOENT)))) ∧
    ((h.dispatcher_open dscached_socket = true ∧
        (h.dispatcher_call_sync method args result).1 = rpc_call_status.RPC_CALL_DONE) →
      (f h method args result).result = (h.dispatcher_call_sync method args result).2) ∧
    ((h.dispatcher_open dscached_socket = true ∧
        (h.dispatcher_call_sync method args result).1 = rpc_call_status.RPC_CALL_ERROR ∧
        rpc_error_code (h.dispatcher_call_sync method args result).2 = ENOENT) →
      (f h method args result).result = some json_t.null)

/-! ## Statements about `call_dispatcher` -/

/-- C1: both copies of `call_dispatcher` return 0 exactly when the connection
opened and the synchronous call ended with `RPC_CALL_DONE` (the result is the
decoded response) or with `RPC_CALL_ERROR` whose `code`, read as a C `int`,
equals `ENOENT` (the result is JSON null); in every other case they return -1. -/
theorem call_dispatcher_zero_iff_done_or_enoent :
    dispatcher_contract pdb_freenas.call_dispatcher ∧
    dispatcher_contract idmap_freenas.call_dispatcher := by
  constructor
  · intro h method args result
    unfold pdb_freenas.call_dispatcher rpc_error_code
    cases hopen : h.dispatcher_open dscached_socket
    · simp
    · simp only [Bool.true_eq_false, if_false]
      rcases hreply : h.dispatcher_call_sync method args result with ⟨err, res⟩
      cases err
      · simp_all
      · simp only []
        split <;> simp_all
      · simp_all
      · simp_all
  · intro h method args result
    unfold idmap_freenas.call_dispatcher rpc_error_code
    cases hopen : h.dispatcher_open dscached_socket
    · simp
    · simp only [Bool.true_eq_false, if_false]
      rcases hreply : h.dispatcher_call_sync method args result with ⟨err, res⟩
      cases err
      · simp_all
      · simp only []
        split <;> simp_all
      · simp_all
      · simp_all

/-! ## Statements about the point lookups -/

/-- Once the account has been built, `freenas_getsampwsid` answers
`NT_STATUS_OK` without comparing SIDs: the comparison is guarded by
`NT_STATUS_IS_OK(nt_status)`, and `nt_status` still holds its initial value
`NT_STATUS_UNSUCCESSFUL`. -/
theorem getsampwsid_ok_once_built (h : Host) (sam_acct : samu) (sid : dom_sid)
    (result : Option json_t) (rid : Nat)
    (hsid : h.sid_peek_check_rid h.get_global_sam_sid sid = some rid)
    (huser : h.algorithmic_pdb_rid_is_user rid = true)
    (hguest : rid ≠ DOMAIN_RID_GUEST)
    (hret : (pdb_freenas.call_dispatcher h "dscached.account.getpwuid"
      (json_pack_ib (h.algorithmic_pdb_user_rid_to_uid rid) true) result).ret = 0)
    (hnull : json_is_null (pdb_freenas.call_dispatcher h "dscached.account.getpwuid"
      (json_pack_ib (h.algorithmic_pdb_user_rid_to_uid rid) true) result).result = false)
    (hbuilt : (pdb_freenas.build_sam_account h sam_acct
      (pdb_freenas.call_dispatcher h "dscached.account.getpwuid"
        (json_pack_ib (h.algorithmic_pdb_user_rid_to_uid rid) true) result).result).1 = true) :
    (pdb_freenas.freenas_getsampwsid h sam_acct sid result).status = NTSTATUS.NT_STATUS_OK := by
  unfold pdb_freenas.freenas_getsampwsid
  simp [hsid, huser, hguest, hret, hnull, hbuilt, NT_STATUS_IS_OK]

/-- C2 at failing inputs. First the case the source comment names: the guest
account is `nobody`, uid 65534; the SID with the algorithmic RID 132068 of that
uid is looked up, the daemon answers the uid-keyed call with the record of
`nobody`, and the built account carries the guest SID (RID 501). Second, the
SID with RID 3000 is looked up and the daemon answers with the record of uid
1001, whose SID has RID 3002. Both lookups return `NT_STATUS_OK` with the
account of the other SID, where the specification asks for `NT_STATUS_NO_SUCH_USER`. -/
theorem getsampwsid_sid_mismatch_returns_ok :
    ((pdb_freenas.freenas_getsampwsid (scenario.answering (scenario.user_record 65534 "nobody"))
        samba.blank_samu (scenario.domain_sid 132068) none).status = NTSTATUS.NT_STATUS_OK ∧
      (pdb_freenas.freenas_getsampwsid (scenario.answering (scenario.user_record 65534 "nobody"))
          samba.blank_samu (scenario.domain_sid 132068) none).sam_acct.user_sid
        = scenario.domain_sid 501 ∧
      scenario.domain_sid 501 ≠ scenario.domain_sid 132068 ∧
      (pdb_freenas.freenas_getsampwsid (scenario.answering (scenario.user_record 65534 "nobody"))
          samba.blank_samu (scenario.domain_sid 132068) none).sent
        = [("dscached.account.getpwuid", json_pack_ib 65534 true)]) ∧
    ((pdb_freenas.freenas_getsampwsid (scenario.answering (scenario.user_record 1001 "bob"))
        samba.blank_samu (scenario.domain_sid 3000) none).status = NTSTATUS.NT_STATUS_OK ∧
      (pdb_freenas.freenas_getsampwsid (scenario.answering (scenario.user_record 1001 "bob"))
          samba.blank_samu (scenario.domain_sid 3000) none).sam_acct.user_sid
        = scenario.domain_sid 3002 ∧
      scenario.domain_sid 3002 ≠ scenario.domain_sid 3000 ∧
      (pdb_freenas.freenas_getsampwsid (scenario.answering (scenario.user_record 1001 "bob"))
          samba.blank_samu (scenario.domain_sid 3000) none).sent
        = [("dscached.account.getpwuid", json_pack_ib 1000 true)]) := by
  refine ⟨⟨by decide, by decide, by decide, rfl⟩, ⟨by decide, by decide, by decide, rfl⟩⟩

/-- C3: for a SID of the own domain whose RID is the guest RID, on a host
whose RID classifier counts the guest RID as a user RID and whose configured
guest account name is non-empty, `freenas_getsampwsid` returns what
`freenas_getsampwnam` returns for that name; the only request it can send is
the name-keyed `dscached.account.getpwnam` call for the guest account, and it
sends exactly that one when the connection opens. -/
theorem getsampwsid_guest_redirects_to_getsampwnam (h : Host) (sam_acct : samu)
    (sid : dom_sid) (guest_account : String) (result : Option json_t)
    (hsid : h.sid_peek_check_rid h.get_global_sam_sid sid = some DOMAIN_RID_GUEST)
    (huser : h.algorithmic_pdb_rid_is_user DOMAIN_RID_GUEST = true)
    (hguest : h.lp_guest_account = some guest_account)
    (hne : guest_account ≠ "") :
    pdb_freenas.freenas_getsampwsid h sam_acct sid result
      = pdb_freenas.freenas_getsampwnam h sam_acct guest_account result ∧
    (pdb_freenas.freenas_getsampwsid h sam_acct sid result).sent
      = (if h.dispatcher_open dscached_socket = true then
          [("dscached.account.getpwnam", json_pack_sb (some guest_account) true)]
        else []) := by
  have hred : pdb_freenas.freenas_getsampwsid h sam_acct sid result
      = pdb_freenas.freenas_getsampwnam h sam_acct guest_account result := by
    unfold pdb_freenas.freenas_getsampwsid
    simp [hsid, huser, hguest, hne]
  refine ⟨hred, ?_⟩
  rw [hred]
  unfold pdb_freenas.freenas_getsampwnam pdb_freenas.call_dispatcher
  cases hopen : h.dispatcher_open dscached_socket
  · simp
  · simp only [Bool.true_eq_false, if_false, if_true]
    repeat' split
    all_goals rfl

/-- C3 on the example host with guest account `nobody`: the lookup of the guest
SID sends the `getpwnam` request for `nobody`. -/
theorem getsampwsid_guest_redirects_to_getsampwnam_witness :
    samba.sid_peek_check_rid samba.machine_sid (scenario.domain_sid 501)
      = some DOMAIN_RID_GUEST ∧
    (pdb_freenas.freenas_getsampwsid (scenario.answering (scenario.user_record 65534 "nobody"))
        samba.blank_samu (scenario.domain_sid 501) none
      = pdb_freenas.freenas_getsampwnam (scenario.answering (scenario.user_record 65534 "nobody"))
        samba.blank_samu "nobody" none ∧
    (pdb_freenas.freenas_getsampwsid (scenario.answering (scenario.user_record 65534 "nobody"))
        samba.blank_samu (scenario.domain_sid 501) none).sent
      = (if (scenario.answering (scenario.user_record 65534 "nobody")).dispatcher_open
            dscached_socket = true then
          [("dscached.account.getpwnam", json_pack_sb (some "nobody") true)]
        else [])) :=
  ⟨by decide,
    getsampwsid_guest_redirects_to_getsampwnam
      (scenario.answering (scenario.user_record 65534 "nobody")) samba.blank_samu
      (scenario.domain_sid 501) "nobody" none (by decide) (by decide) rfl (by decide)⟩

/-- C4 at failing inputs: for the user name `alice`, `freenas_getsampwnam`
returns the same status `NT_STATUS_UNSUCCESSFUL` when the daemon answers with
the error code `ENOENT` (`call_dispatcher` returns 0), when the daemon is
unreachable and when the daemon answers with another error code, 5
(`call_dispatcher` returns -1): the status does not tell absent from broken,
where the specification asks for a not-found status that differs from the others. -/
theorem getsampwnam_enoent_status_equals_failure_status :
    (pdb_freenas.freenas_getsampwnam (scenario.failing ENOENT) samba.blank_samu "alice"
        none).status = NTSTATUS.NT_STATUS_UNSUCCESSFUL ∧
    (pdb_freenas.freenas_getsampwnam scenario.down samba.blank_samu "alice"
        none).status = NTSTATUS.NT_STATUS_UNSUCCESSFUL ∧
    (pdb_freenas.freenas_getsampwnam (scenario.failing 5) samba.blank_samu "alice"
        none).status = NTSTATUS.NT_STATUS_UNSUCCESSFUL ∧
    (pdb_freenas.call_dispatcher (scenario.failing ENOENT) "dscached.account.getpwnam"
        (json_pack_sb (some "alice") true) none).ret = 0 ∧
    (pdb_freenas.call_dispatcher scenario.down "dscached.account.getpwnam"
        (json_pack_sb (some "alice") true) none).ret = -1 ∧
    (pdb_freenas.call_dispatcher (scenario.failing 5) "dscached.account.getpwnam"
        (json_pack_sb (some "alice") true) none).ret = -1 := by
  refine ⟨by decide, by decide, by decide, by decide, by decide, by decide⟩

/-- For every user name, whenever the daemon is unreachable or the `getpwnam`
call does not end with `RPC_CALL_DONE` (an error reply with code `ENOENT` or
with any other code, or any other status), `freenas_getsampwnam` returns
`NT_STATUS_UNSUCCESSFUL` and leaves the account record as it was: the
not-found answer gets the status of the failures. -/
theorem getsampwnam_unsuccessful_unless_done (h : Host) (sam_acct : samu)
    (username : String) (result : Option json_t)
    (hfail : h.dispatcher_open dscached_socket = false ∨
      (h.dispatcher_call_sync "dscached.account.getpwnam"
        (json_pack_sb (some username) true) result).1 ≠ rpc_call_status.RPC_CALL_DONE) :
    (pdb_freenas.freenas_getsampwnam h sam_acct username result).status
      = NTSTATUS.NT_STATUS_UNSUCCESSFUL ∧
    (pdb_freenas.freenas_getsampwnam h sam_acct username result).sam_acct = sam_acct := by
  unfold pdb_freenas.freenas_getsampwnam pdb_freenas.call_dispatcher
  cases hopen : h.dispatcher_open dscached_socket
  · simp
  · simp only [hopen, Bool.true_eq_false, false_or] at hfail
    simp only [Bool.true_eq_false, if_false]
    by_cases henoent :
        (h.dispatcher_call_sync "dscached.account.getpwnam"
          (json_pack_sb (some username) true) result).1 = rpc_call_status.RPC_CALL_ERROR ∧
        c_int (json_integer_value (json_object_get
          (h.dispatcher_call_sync "dscached.account.getpwnam"
            (json_pack_sb (some username) true) result).2 "code")) = ENOENT
    · simp [henoent, json_is_null]
    · simp [henoent, hfail]

/-- The common failure status at the daemon that answers `ENOENT`. -/
theorem getsampwnam_unsuccessful_unless_done_witness :
    (pdb_freenas.freenas_getsampwnam (scenario.failing ENOENT) samba.blank_samu "alice"
        none).status = NTSTATUS.NT_STATUS_UNSUCCESSFUL ∧
    (pdb_freenas.freenas_getsampwnam (scenario.failing ENOENT) samba.blank_samu "alice"
        none).sam_acct = samba.blank_samu :=
  getsampwnam_unsuccessful_unless_done (scenario.failing ENOENT) samba.blank_samu "alice" none
    (Or.inr (by decide))

/-! ## Statements about the search iterator -/

open pdb_freenas

/-- One call of `freenas_search_next_entry` when no page is left: it returns
false and releases the call handle and the connection. -/
theorem next_entry_end (state : freenas_search_state) (entry : samr_displayentry)
    (hr : search_refill state = none) :
    freenas_search_next_entry state entry =
      (false, entry,
        { state with
          call := rpc_call_free (rpc_call_continue state.call).2
          conn := dispatcher_close state.conn }) := by
  rw [freenas_search_next_entry]
  split
  · rfl
  · rename_i st hst
    rw [hr] at hst
    cases hst

/-- One call of `freenas_search_next_entry` when the callback rejects the
current item: the position moves on and the loop repeats. -/
theorem next_entry_skip (state st : freenas_search_state) (entry : samr_displayentry)
    (hr : search_refill state = some st)
    (hrej : (st.callback (json_array_get st.users st.position)
      { entry with idx := st.position }).1 = false) :
    freenas_search_next_entry state entry =
      freenas_search_next_entry { st with position := st.position + 1 }
        (st.callback (json_array_get st.users st.position)
          { entry with idx := st.position }).2 := by
  rw [freenas_search_next_entry]
  split
  · rename_i hst
    rw [hr] at hst
    cases hst
  · rename_i st1 hst
    rw [hr] at hst
    cases hst
    simp [hrej]

/-- One call of `freenas_search_next_entry` when the callback accepts the
current item and fills in an account name: it returns true with that entry. -/
theorem next_entry_accept (state st : freenas_search_state) (entry : samr_displayentry)
    (hr : search_refill state = some st)
    (hacc : (st.callback (json_array_get st.users st.position)
      { entry with idx := st.position }).1 = true)
    (hname : (st.callback (json_array_get st.users st.position)
      { entry with idx := st.position }).2.account_name ≠ none) :
    freenas_search_next_entry state entry =
      (true,
        (st.callback (json_array_get st.users st.position) { entry with idx := st.position }).2,
        { st with position := st.position + 1 }) := by
  rw [freenas_search_next_entry]
  split
  · rename_i hst
    rw [hr] at hst
    cases hst
  · rename_i st1 hst
    rw [hr] at hst
    cases hst
    simp [hacc, hname]

/-- One call of `freenas_search_next_entry` when the callback accepts the
current item but leaves the account name `NULL`: it returns false, with the
position unchanged and nothing released. -/
theorem next_entry_noname (state st : freenas_search_state) (entry : samr_displayentry)
    (hr : search_refill state = some st)
    (hacc : (st.callback (json_array_get st.users st.position)
      { entry with idx := st.position }).1 = true)
    (hname : (st.callback (json_array_get st.users st.position)
      { entry with idx := st.position }).2.account_name = none) :
    freenas_search_next_entry state entry =
      (false,
        (st.callback (json_array_get st.users st.position) { entry with idx := st.position }).2,
        st) := by
  rw [freenas_search_next_entry]
  split
  · rename_i hst
    rw [hr] at hst
    cases hst
  · rename_i st1 hst
    rw [hr] at hst
    cases hst
    simp [hacc, hname]

/-- When a record is still to come, the first block of
`freenas_search_next_entry` ends on a page that has that record at the current
position. -/
theorem refill_some (st : freenas_search_state) (page : List json_t)
    (ps : List (List json_t)) (x : json_t) (rem : List json_t)
    (husers : st.users = some (json_t.array page)) (hpos : st.position ≤ page.length)
    (hpend : st.call.pending = ps.map json_t.array) (hne : ∀ p ∈ ps, p ≠ [])
    (hrem : page.drop st.position ++ ps.flatten = x :: rem) :
    ∃ (st1 : freenas_search_state) (page1 : List json_t) (ps1 : List (List json_t)), search_refill st = some st1 ∧
      st1.users = some (json_t.array page1) ∧ st1.position < page1.length ∧
      json_array_get st1.users st1.position = some x ∧
      st1.call.pending = ps1.map json_t.array ∧ (∀ p ∈ ps1, p ≠ []) ∧
      page1.drop (st1.position + 1) ++ ps1.flatten = rem ∧
      st1.callback = st.callback ∧ st1.conn = st.conn ∧ st1.call.frees = st.call.frees := by
  by_cases hlt : st.position < page.length
  · refine ⟨st, page, ps, ?_, husers, hlt, ?_, hpend, hne, ?_, rfl, rfl, rfl⟩
    · unfold search_refill
      simp [husers, json_array_size, hlt]
    · rw [List.drop_eq_getElem_cons hlt] at hrem
      simp only [List.cons_append, List.cons.injEq] at hrem
      simp [husers, json_array_get, List.getElem?_eq_getElem hlt, hrem.1]
    · rw [List.drop_eq_getElem_cons hlt] at hrem
      simp only [List.cons_append, List.cons.injEq] at hrem
      exact hrem.2
  · have hlen : page.length ≤ st.position := Nat.le_of_not_lt hlt
    rw [List.drop_eq_nil_of_le hlen] at hrem
    simp only [List.nil_append] at hrem
    rcases ps with _ | ⟨p, ps1⟩
    · simp at hrem
    · rcases p with _ | ⟨y, p1⟩
      · exact absurd rfl (hne [] (by simp))
      · simp only [List.flatten_cons, List.cons_append, List.cons.injEq] at hrem
        simp only [List.map_cons] at hpend
        refine ⟨{ st with
            call := (rpc_call_continue st.call).2
            users := rpc_call_result (rpc_call_continue st.call).2
            position := 0 }, y :: p1, ps1, ?_, ?_, ?_, ?_, ?_, ?_, ?_, rfl, rfl, ?_⟩
        · unfold search_refill
          simp [husers, json_array_size, hlen, rpc_call_continue, hpend]
        · simp [rpc_call_continue, hpend, rpc_call_result]
        · simp
        · simp [rpc_call_continue, hpend, rpc_call_result, json_array_get, hrem.1]
        · simp [rpc_call_continue, hpend]
        · intro p hp
          exact hne p (by simp [hp])
        · simpa using hrem.2
        · simp [rpc_call_continue, hpend]

/-- When no record is to come, the first block of `freenas_search_next_entry`
finds the stream exhausted. -/
theorem refill_none (st : freenas_search_state) (page : List json_t)
    (ps : List (List json_t))
    (husers : st.users = some (json_t.array page))
    (hpend : st.call.pending = ps.map json_t.array) (hne : ∀ p ∈ ps, p ≠ [])
    (hrem : page.drop st.position ++ ps.flatten = []) :
    search_refill st = none ∧ (rpc_call_continue st.call).2 = st.call := by
  simp only [List.append_eq_nil, List.drop_eq_nil_iff] at hrem
  have hps : ps = [] := by
    rcases ps with _ | ⟨p, ps1⟩
    · rfl
    · rcases p with _ | ⟨y, p1⟩
      · exact absurd rfl (hne [] (by simp))
      · simp at hrem
  subst hps
  simp only [List.map_nil] at hpend
  constructor
  · unfold search_refill
    simp [husers, json_array_size, hrem.1, rpc_call_continue, hpend]
  · simp [rpc_call_continue, hpend]

/-- One call of `freenas_search_next_entry` on a stream without an empty later
page, for a callback whose verdict on a record is `accept` and which names
every record it accepts: with no accepted record left the call returns false
and releases connection and call handle once; otherwise it returns true with
the conversion of the first accepted record and leaves the records after it. -/
theorem next_entry_spec
    (cb : Option json_t → samr_displayentry → Bool × samr_displayentry)
    (accept : json_t → Bool)
    (hcb : ∀ x e, (cb (some x) e).1 = accept x)
    (rem : List json_t) :
    ∀ (st : freenas_search_state) (entry : samr_displayentry) (page : List json_t)
      (ps : List (List json_t)),
      st.callback = cb → st.users = some (json_t.array page) → st.position ≤ page.length →
      st.call.pending = ps.map json_t.array → (∀ p ∈ ps, p ≠ []) →
      page.drop st.position ++ ps.flatten = rem →
      (∀ x ∈ rem, ∀ e, accept x = true → (cb (some x) e).2.account_name ≠ none) →
      (rem.filter accept = [] →
        ∃ e1 st1, freenas_search_next_entry st entry = (false, e1, st1) ∧
          st1.conn.closes = st.conn.closes + 1 ∧ st1.call.frees = st.call.frees + 1) ∧
      (∀ x tail, rem.filter accept = x :: tail →
        ∃ (e0 : samr_displayentry) (st1 : freenas_search_state) (page1 : List json_t)
          (ps1 : List (List json_t)),
          freenas_search_next_entry st entry = (true, (cb (some x) e0).2, st1) ∧
          st1.callback = cb ∧ st1.users = some (json_t.array page1) ∧
          st1.position ≤ page1.length ∧ st1.call.pending = ps1.map json_t.array ∧
          (∀ p ∈ ps1, p ≠ []) ∧
          (page1.drop st1.position ++ ps1.flatten).filter accept = tail ∧
          (∀ y ∈ page1.drop st1.position ++ ps1.flatten, y ∈ rem) ∧
          st1.conn = st.conn ∧ st1.call.frees = st.call.frees) := by
  induction rem with
  | nil =>
    intro st entry page ps hcbk husers hpos hpend hne hrem hnames
    obtain ⟨hnone, hcall⟩ := refill_none st page ps husers hpend hne hrem
    constructor
    · intro _
      refine ⟨_, _, next_entry_end st entry hnone, ?_, ?_⟩
      · simp [dispatcher_close]
      · simp [rpc_call_free, hcall]
    · intro x tail hx
      simp at hx
  | cons x rem ih =>
    intro st entry page ps hcbk husers hpos hpend hne hrem hnames
    obtain ⟨st1, page1, ps1, hr, husers1, hlt1, hitem, hpend1, hne1, hrem1, hcb1, hconn1, hfrees1⟩ :=
      refill_some st page ps x rem husers hpos hpend hne hrem
    have hverdict : ∀ e, st1.callback (json_array_get st1.users st1.position) e
        = cb (some x) e := by
      intro e
      rw [hcb1, hcbk, hitem]
    cases hacc : accept x
    · -- the record is rejected: the loop repeats on the next position
      have hrej : (st1.callback (json_array_get st1.users st1.position)
          { entry with idx := st1.position }).1 = false := by
        rw [hverdict, hcb, hacc]
      have hskip := next_entry_skip st st1 entry hr hrej
      have hih := ih { st1 with position := st1.position + 1 }
        (st1.callback (json_array_get st1.users st1.position)
          { entry with idx := st1.position }).2 page1 ps1
        (by simp [hcb1, hcbk]) husers1 (by simpa using hlt1) hpend1 hne1 hrem1
        (fun y hy => hnames y (List.mem_cons_of_mem x hy))
      have hfilter : List.filter accept (x :: rem) = List.filter accept rem := by
        simp [List.filter_cons, hacc]
      rw [hfilter, hskip]
      constructor
      · intro hnil
        obtain ⟨e1, st2, heq, hc, hf⟩ := hih.1 hnil
        refine ⟨e1, st2, heq, ?_, ?_⟩
        · simpa [hconn1] using hc
        · simpa [hfrees1] using hf
      · intro y tail hy
        obtain ⟨e0, st2, page2, ps2, heq, h1, h2, h3, h4, h5, h6, h7, h8, h9⟩ := hih.2 y tail hy
        refine ⟨e0, st2, page2, ps2, heq, h1, h2, h3, h4, h5, h6, ?_, ?_, ?_⟩
        · intro z hz
          exact List.mem_cons_of_mem x (h7 z hz)
        · simpa [hconn1] using h8
        · simpa [hfrees1] using h9
    · -- the record is accepted
      have hyes : (st1.callback (json_array_get st1.users st1.position)
          { entry with idx := st1.position }).1 = true := by
        rw [hverdict, hcb, hacc]
      have hnm : (st1.callback (json_array_get st1.users st1.position)
          { entry with idx := st1.position }).2.account_name ≠ none := by
        rw [hverdict]
        exact hnames x (List.mem_cons_self x rem) _ hacc
      have hstep := next_entry_accept st st1 entry hr hyes hnm
      have hfilter : List.filter accept (x :: rem) = x :: List.filter accept rem := by
        simp [List.filter_cons, hacc]
      rw [hfilter]
      constructor
      · intro hnil
        simp at hnil
      · intro y tail hy
        simp only [List.cons.injEq] at hy
        obtain ⟨hxy, htail⟩ := hy
        subst hxy
        refine ⟨{ entry with idx := st1.position }, { st1 with position := st1.position + 1 },
          page1, ps1, ?_, ?_, husers1, ?_, hpend1, hne1, ?_, ?_, hconn1, hfrees1⟩
        · rw [hstep, hverdict]
        · simp [hcb1, hcbk]
        · simpa using hlt1
        · simp only [hrem1]
          exact htail
        · intro z hz
          simp only [hrem1] at hz
          exact List.mem_cons_of_mem x hz

/-- A consumer that calls `freenas_search_next_entry` until it returns false, on
a stream without an empty later page: it is handed the conversions of the
accepted records, in stream order, one entry per record, and when the call
that returns false is made the connection has been closed once and the call
handle freed once. -/
theorem search_consume_spec
    (cb : Option json_t → samr_displayentry → Bool × samr_displayentry)
    (accept : json_t → Bool)
    (hcb : ∀ x e, (cb (some x) e).1 = accept x)
    (accepted : List json_t) :
    ∀ (calls : Nat) (st : freenas_search_state) (entry : samr_displayentry)
      (page : List json_t) (ps : List (List json_t)),
      st.callback = cb → st.users = some (json_t.array page) → st.position ≤ page.length →
      st.call.pending = ps.map json_t.array → (∀ p ∈ ps, p ≠ []) →
      (page.drop st.position ++ ps.flatten).filter accept = accepted →
      (∀ x ∈ page.drop st.position ++ ps.flatten, ∀ e, accept x = true →
        (cb (some x) e).2.account_name ≠ none) →
      accepted.length < calls →
      List.Forall₂ (fun (e : samr_displayentry) (x : json_t) => ∃ e0, e = (cb (some x) e0).2)
        (search_consume calls st entry).1 accepted ∧
      (search_consume calls st entry).2.conn.closes = st.conn.closes + 1 ∧
      (search_consume calls st entry).2.call.frees = st.call.frees + 1 := by
  induction accepted with
  | nil =>
    intro calls st entry page ps hcbk husers hpos hpend hne hfil hnames hcalls
    obtain ⟨n, rfl⟩ : ∃ n, calls = n + 1 := ⟨calls - 1, by simp at hcalls; omega⟩
    obtain ⟨e1, st1, heq, hc, hf⟩ :=
      (next_entry_spec cb accept hcb _ st entry page ps hcbk husers hpos hpend hne rfl hnames).1
        hfil
    simp [search_consume, heq, hc, hf]
  | cons x tail ih =>
    intro calls st entry page ps hcbk husers hpos hpend hne hfil hnames hcalls
    obtain ⟨n, rfl⟩ : ∃ n, calls = n + 1 := ⟨calls - 1, by simp at hcalls; omega⟩
    obtain ⟨e0, st1, page1, ps1, heq, h1, h2, h3, h4, h5, h6, h7, h8, h9⟩ :=
      (next_entry_spec cb accept hcb _ st entry page ps hcbk husers hpos hpend hne rfl hnames).2
        x tail hfil
    have hih := ih n st1 (cb (some x) e0).2 page1 ps1 h1 h2 h3 h4 h5 h6
      (fun y hy => hnames y (h7 y hy)) (by simp at hcalls; omega)
    simp only [search_consume, heq, if_true]
    refine ⟨List.Forall₂.cons ⟨e0, rfl⟩ hih.1, ?_, ?_⟩
    · rw [hih.2.1, h8]
    · rw [hih.2.2, h9]

/-- Entries related one by one to records have the views of those records. -/
theorem forall2_view {V : Type}
    (cb : Option json_t → samr_displayentry → Bool × samr_displayentry)
    (view : json_t → V) (proj : samr_displayentry → V)
    (es : List samr_displayentry) (xs : List json_t)
    (hrel : List.Forall₂ (fun (e : samr_displayentry) (x : json_t) =>
      ∃ e0, e = (cb (some x) e0).2) es xs)
    (hview : ∀ x ∈ xs, ∀ e0, proj (cb (some x) e0).2 = view x) :
    es.map proj = xs.map view := by
  induction hrel with
  | nil => rfl
  | @cons e x es1 xs1 hhead _ ih =>
    obtain ⟨e0, rfl⟩ := hhead
    simp only [List.map_cons]
    rw [hview x (List.mem_cons_self x xs1) e0,
      ih (fun y hy => hview y (List.mem_cons_of_mem x hy))]

/-- User enumeration over a stream in which no page after the first is empty
and every record carries a username: a consumer that calls
`freenas_search_next_entry` until it returns false receives exactly one entry
per record, in page order and within-page order, with the RID, account name
and full name converted from that record; the connection is then closed once
and the call handle freed once. -/
theorem user_search_lists_every_record (h : Host) (first : List json_t)
    (later : List (List json_t)) (entry : samr_displayentry) (calls : Nat)
    (hopen : h.dispatcher_open dscached_socket = true)
    (hstream : h.dispatcher_call_sync_ex "dscached.account.query" (json_pack_query true)
      = some { result := some (json_t.array first), pending := later.map json_t.array,
               frees := 0 })
    (hne : ∀ p ∈ later, p ≠ [])
    (hnames : ∀ u ∈ first ++ later.flatten,
      json_string_value (json_object_get (some u) "username") ≠ none)
    (hcalls : (first ++ later.flatten).length < calls) :
    ∃ st, freenas_search_users h = some st ∧
      (search_consume calls st entry).1.map display_view
        = (first ++ later.flatten).map (user_view h) ∧
      (freenas_search_end (search_consume calls st entry).2).1.closes = 1 ∧
      (freenas_search_end (search_consume calls st entry).2).2.frees = 1 := by
  refine ⟨_, by simp [freenas_search_users, call_dispatcher_stream, hopen, hstream,
    rpc_call_result]; rfl, ?_⟩
  have hspec := search_consume_spec (freenas_convert_user h) (fun _ => true)
    (fun x e => rfl) (first ++ later.flatten) calls
    { conn := { closes := 0 }
      call := { result := some (json_t.array first), pending := later.map json_t.array,
                frees := 0 }
      users := some (json_t.array first)
      position := 0
      callback := freenas_convert_user h } entry first later rfl rfl (Nat.zero_le _) rfl hne
    (List.filter_eq_self.2 (fun _ _ => rfl))
    (by
      intro x hx e _
      simpa [freenas_convert_user, talloc_strdup] using hnames x (by simpa using hx))
    hcalls
  refine ⟨?_, ?_, ?_⟩
  · exact forall2_view (freenas_convert_user h) (user_view h) display_view _ _ hspec.1
      (fun x _ e0 => by simp [freenas_convert_user, display_view, user_view, talloc_strdup])
  · simpa [freenas_search_end] using hspec.2.1
  · simpa [freenas_search_end] using hspec.2.2

/-- The three-page example of the specification: pages of sizes 2, 2 and 1
yield exactly the five entries, in page order, and the session is released
once when the sixth call returns false. -/
theorem user_search_three_pages :
    ∃ st, freenas_search_users scenario.three_pages = some st ∧
      (search_consume 6 st samba.blank_entry).1.map display_view
        = [user_view scenario.three_pages (scenario.user_record 1001 "u1"),
           user_view scenario.three_pages (scenario.user_record 1002 "u2"),
           user_view scenario.three_pages (scenario.user_record 1003 "u3"),
           user_view scenario.three_pages (scenario.user_record 1004 "u4"),
           user_view scenario.three_pages (scenario.user_record 1005 "u5")] ∧
      (freenas_search_end (search_consume 6 st samba.blank_entry).2).1.closes = 1 ∧
      (freenas_search_end (search_consume 6 st samba.blank_entry).2).2.frees = 1 :=
  user_search_lists_every_record scenario.three_pages
    [scenario.user_record 1001 "u1", scenario.user_record 1002 "u2"]
    [[scenario.user_record 1003 "u3", scenario.user_record 1004 "u4"],
     [scenario.user_record 1005 "u5"]]
    samba.blank_entry 6 rfl rfl
    (by
      intro p hp
      simp only [List.mem_cons, List.mem_singleton, List.not_mem_nil, or_false] at hp
      rcases hp with rfl | rfl <;> simp)
    (by
      intro u hu
      simp only [List.flatten_cons, List.flatten_nil, List.append_nil, List.cons_append,
        List.nil_append, List.mem_cons, List.mem_singleton, List.not_mem_nil, or_false] at hu
      rcases hu with rfl | rfl | rfl | rfl | rfl <;> decide)
    (by decide)

/-- The two calls of the gap scenario: the first hands out `alice`, the second
fetches the empty page and returns false without releasing anything. -/
theorem gap_stream_calls :
    freenas_search_next_entry
        (scenario.session (freenas_search_users scenario.gap_stream)) samba.blank_entry
      = (true,
          (freenas_convert_user scenario.gap_stream (some scenario.alice)
            { samba.blank_entry with idx := 0 }).2,
          { scenario.session (freenas_search_users scenario.gap_stream) with position := 1 }) ∧
    freenas_search_next_entry
        { scenario.session (freenas_search_users scenario.gap_stream) with position := 1 }
        (freenas_convert_user scenario.gap_stream (some scenario.alice)
          { samba.blank_entry with idx := 0 }).2
      = (false,
          (freenas_convert_user scenario.gap_stream none
            { (freenas_convert_user scenario.gap_stream (some scenario.alice)
                { samba.blank_entry with idx := 0 }).2 with idx := 0 }).2,
          { scenario.session (freenas_search_users scenario.gap_stream) with
            position := 0
            users := some (json_t.array [])
            call := { result := some (json_t.array []),
                      pending := [json_t.array [scenario.bob]], frees := 0 } }) := by
  constructor
  · exact (next_entry_accept (scenario.session (freenas_search_users scenario.gap_stream))
      (scenario.session (freenas_search_users scenario.gap_stream))
      samba.blank_entry rfl rfl (by decide)).trans rfl
  · exact (next_entry_noname
      { scenario.session (freenas_search_users scenario.gap_stream) with position := 1 }
      { scenario.session (freenas_search_users scenario.gap_stream) with
        position := 0
        users := some (json_t.array [])
        call := { result := some (json_t.array []),
                  pending := [json_t.array [scenario.bob]], frees := 0 } }
      (freenas_convert_user scenario.gap_stream (some scenario.alice)
        { samba.blank_entry with idx := 0 }).2 rfl rfl rfl).trans rfl

/-- C5 at a failing input: the daemon serves the page with `alice`, then an
empty page, then the page with `bob`. The first call hands out `alice`; the
second call fetches the empty page, converts the missing item and returns
false. The consumer has received one entry of two, the page with `bob` is
still pending, and nothing has been released. -/
theorem user_search_stops_at_empty_page :
    (freenas_search_users scenario.gap_stream).isSome = true ∧
    (search_consume 5 (scenario.session (freenas_search_users scenario.gap_stream))
        samba.blank_entry).1.map display_view
      = [user_view scenario.gap_stream scenario.alice] ∧
    (search_consume 5 (scenario.session (freenas_search_users scenario.gap_stream))
        samba.blank_entry).2.call.pending.length = 1 ∧
    (search_consume 5 (scenario.session (freenas_search_users scenario.gap_stream))
        samba.blank_entry).2.conn.closes = 0 := by
  obtain ⟨c1, c2⟩ := gap_stream_calls
  have hrun : search_consume 5 (scenario.session (freenas_search_users scenario.gap_stream))
      samba.blank_entry
      = ([(freenas_convert_user scenario.gap_stream (some scenario.alice)
            { samba.blank_entry with idx := 0 }).2],
          { scenario.session (freenas_search_users scenario.gap_stream) with
            position := 0
            users := some (json_t.array [])
            call := { result := some (json_t.array []),
                      pending := [json_t.array [scenario.bob]], frees := 0 } }) := by
    simp only [search_consume, c1, c2, if_true, Bool.false_eq_true, if_false]
  rw [hrun]
  exact ⟨rfl, rfl, rfl, rfl⟩

/-- The first block of `freenas_search_next_entry` neither closes the
connection nor frees the call handle. -/
theorem refill_keeps_resources (state st : freenas_search_state)
    (hr : search_refill state = some st) :
    st.conn = state.conn ∧ st.call.frees = state.call.frees := by
  unfold search_refill at hr
  split at hr
  · split at hr
    · cases hr
    · simp only [Option.some.injEq] at hr
      subst hr
      refine ⟨rfl, ?_⟩
      simp only [rpc_call_continue]
      split <;> rfl
  · simp only [Option.some.injEq] at hr
    subst hr
    exact ⟨rfl, rfl⟩

/-- A call of `freenas_search_next_entry` that returns true releases nothing:
the connection has as many closes and the call handle as many frees as
before. -/
theorem next_entry_true_releases_nothing (state : freenas_search_state)
    (entry : samr_displayentry) :
    (freenas_search_next_entry state entry).1 = true →
      (freenas_search_next_entry state entry).2.2.conn = state.conn ∧
      (freenas_search_next_entry state entry).2.2.call.frees = state.call.frees := by
  induction state, entry using freenas_search_next_entry.induct with
  | case1 state entry hr =>
    rw [next_entry_end state entry hr]
    intro hfalse
    cases hfalse
  | case2 state entry st hr item converted hrej ih =>
    rw [next_entry_skip state st entry hr hrej]
    intro htrue
    obtain ⟨h1, h2⟩ := ih htrue
    obtain ⟨h3, h4⟩ := refill_keeps_resources state st hr
    exact ⟨h1.trans h3, h2.trans h4⟩
  | case3 state entry st hr item converted hacc hname =>
    rw [next_entry_noname state st entry hr (by simpa using hacc) hname]
    intro hfalse
    cases hfalse
  | case4 state entry st hr item converted hacc hname =>
    rw [next_entry_accept state st entry hr (by simpa using hacc) hname]
    intro _
    exact refill_keeps_resources state st hr

/-- A consumer that has been handed an entry by each of its `calls` calls and
then stops has had nothing released: the connection has not been closed and
the call handle has not been freed by the iterator. -/
theorem early_stop_releases_nothing (calls : Nat) :
    ∀ (state : freenas_search_state) (entry : samr_displayentry),
      (search_consume calls state entry).1.length = calls →
      (search_consume calls state entry).2.conn = state.conn ∧
      (search_consume calls state entry).2.call.frees = state.call.frees := by
  induction calls with
  | zero =>
    intro state entry _
    exact ⟨rfl, rfl⟩
  | succ n ih =>
    intro state entry hlen
    simp only [search_consume] at hlen ⊢
    cases hres : (freenas_search_next_entry state entry).1
    · simp [hres] at hlen
    · simp only [hres, if_true, List.length_cons, Nat.add_right_cancel_iff] at hlen ⊢
      obtain ⟨h1, h2⟩ := ih _ _ hlen
      obtain ⟨h3, h4⟩ := next_entry_true_releases_nothing state entry hres
      exact ⟨h1.trans h3, h2.trans h4⟩

/-- C6 at a failing input: the daemon serves one page holding `alice` and
`bob`. A consumer that calls `freenas_search_end` right away, or after having
been handed `alice`, leaves the connection open and the call handle unfreed:
`freenas_search_end` releases neither, where the specification asks for exactly one
close and one free. -/
theorem search_end_after_early_stop_leaks :
    (freenas_search_users scenario.one_page_stream).isSome = true ∧
    (freenas_search_end
      (scenario.session (freenas_search_users scenario.one_page_stream))).1.closes = 0 ∧
    (freenas_search_end
      (scenario.session (freenas_search_users scenario.one_page_stream))).2.frees = 0 ∧
    (search_consume 1 (scenario.session (freenas_search_users scenario.one_page_stream))
        samba.blank_entry).1.map display_view
      = [user_view scenario.one_page_stream scenario.alice] ∧
    (freenas_search_end
      (search_consume 1 (scenario.session (freenas_search_users scenario.one_page_stream))
        samba.blank_entry).2).1.closes = 0 ∧
    (freenas_search_end
      (search_consume 1 (scenario.session (freenas_search_users scenario.one_page_stream))
        samba.blank_entry).2).2.frees = 0 := by
  have c1 : freenas_search_next_entry
        (scenario.session (freenas_search_users scenario.one_page_stream)) samba.blank_entry
      = (true,
          (freenas_convert_user scenario.one_page_stream (some scenario.alice)
            { samba.blank_entry with idx := 0 }).2,
          { scenario.session (freenas_search_users scenario.one_page_stream) with
            position := 1 }) :=
    (next_entry_accept (scenario.session (freenas_search_users scenario.one_page_stream))
      (scenario.session (freenas_search_users scenario.one_page_stream))
      samba.blank_entry rfl rfl (by decide)).trans rfl
  have hrun : search_consume 1
        (scenario.session (freenas_search_users scenario.one_page_stream)) samba.blank_entry
      = ([(freenas_convert_user scenario.one_page_stream (some scenario.alice)
            { samba.blank_entry with idx := 0 }).2],
          { scenario.session (freenas_search_users scenario.one_page_stream) with
            position := 1 }) := by
    simp only [search_consume, c1, if_true]
  rw [hrun]
  exact ⟨rfl, rfl, rfl, rfl, rfl, rfl⟩

/-- Group enumeration over a stream in which no page after the first is empty
and every record carries a name: a consumer that calls
`freenas_search_next_entry` until it returns false receives the conversions of
the records whose name `getpwnam` does not find, in stream order. -/
theorem group_consume_spec (h : Host) (first : List json_t) (later : List (List json_t))
    (entry : samr_displayentry) (calls : Nat)
    (hne : ∀ p ∈ later, p ≠ [])
    (hnames : ∀ g ∈ first ++ later.flatten, group_name g ≠ none)
    (hcalls : ((first ++ later.flatten).filter
      (fun g => !h.getpwnam (group_name g))).length < calls) :
    (search_consume calls
        { conn := { closes := 0 }
          call := { result := some (json_t.array first), pending := later.map json_t.array,
                    frees := 0 }
          users := some (json_t.array first)
          position := 0
          callback := freenas_convert_group h } entry).1.map display_view
      = ((first ++ later.flatten).filter (fun g => !h.getpwnam (group_name g))).map
          (group_view h) := by
  have hverdict : ∀ x e, (freenas_convert_group h (some x) e).1
      = (fun g => !h.getpwnam (group_name g)) x := by
    intro x e
    unfold freenas_convert_group
    simp only [group_name]
    split <;> simp_all
  have hspec := search_consume_spec (freenas_convert_group h)
    (fun g => !h.getpwnam (group_name g)) hverdict _ calls
    { conn := { closes := 0 }
      call := { result := some (json_t.array first), pending := later.map json_t.array,
                frees := 0 }
      users := some (json_t.array first)
      position := 0
      callback := freenas_convert_group h } entry first later rfl rfl (Nat.zero_le _) rfl hne
    rfl
    (by
      intro x hx e hacc
      have hx1 : x ∈ first ++ later.flatten := by simpa using hx
      have hnm := hnames x hx1
      simp only [Bool.not_eq_true', group_name] at hacc hnm
      simp [freenas_convert_group, hacc, talloc_strdup, hnm])
    hcalls
  refine forall2_view (freenas_convert_group h) (group_view h) display_view _ _ hspec.1 ?_
  intro x hx e0
  have hacc : h.getpwnam (group_name x) = false := by
    simpa using (List.mem_filter.1 hx).2
  simp only [group_name] at hacc
  simp [freenas_convert_group, hacc, display_view, group_view, group_name, talloc_strdup]

/-- C7 refuted: the daemon serves the groups `staff` and `wheel`, and the host
has a local group `wheel` (and no local user of that name). Group enumeration
hands out both `staff` and `wheel`: the record that collides with the local
group is not skipped. -/
theorem group_search_keeps_local_group_name :
    scenario.wheel_stream.getgrnam (group_name scenario.wheel) = true ∧
    (freenas_search_groups scenario.wheel_stream).isSome = true ∧
    (search_consume 5 (scenario.session (freenas_search_groups scenario.wheel_stream))
        samba.blank_entry).1.map display_view
      = [group_view scenario.wheel_stream scenario.staff,
         group_view scenario.wheel_stream scenario.wheel] ∧
    ((search_consume 5 (scenario.session (freenas_search_groups scenario.wheel_stream))
        samba.blank_entry).1.map (fun e => e.account_name))
      = [some "staff", some "wheel"] := by
  have hrun := group_consume_spec scenario.wheel_stream [scenario.staff, scenario.wheel] []
    samba.blank_entry 5 (by simp)
    (by
      intro g hg
      simp only [List.flatten_nil, List.append_nil, List.mem_cons, List.mem_singleton,
        List.not_mem_nil, or_false] at hg
      rcases hg with rfl | rfl <;> decide)
    (by decide)
  have hviews : (search_consume 5
      (scenario.session (freenas_search_groups scenario.wheel_stream))
      samba.blank_entry).1.map display_view
      = [group_view scenario.wheel_stream scenario.staff,
         group_view scenario.wheel_stream scenario.wheel] := hrun
  refine ⟨by decide, rfl, hviews, ?_⟩
  have hnames := congrArg (List.map (fun v => v.2.1)) hviews
  simpa [display_view, List.map_map, Function.comp_def] using hnames

/-- C7 as amended: for every stream of remote group records that carry a name,
served in pages of which none after the first is empty, the entries handed out
by group enumeration are exactly, in order, the conversions of the records
whose name `getpwnam` does not find in the local account database; a record
whose name is that of a local user is skipped without ending the enumeration. -/
theorem group_search_skips_local_user_names (h : Host) (first : List json_t)
    (later : List (List json_t)) (entry : samr_displayentry) (calls : Nat)
    (hopen : h.dispatcher_open dscached_socket = true)
    (hstream : h.dispatcher_call_sync_ex "dscached.group.query" (json_pack_query true)
      = some { result := some (json_t.array first), pending := later.map json_t.array,
               frees := 0 })
    (hne : ∀ p ∈ later, p ≠ [])
    (hnames : ∀ g ∈ first ++ later.flatten, group_name g ≠ none)
    (hcalls : ((first ++ later.flatten).filter
      (fun g => !h.getpwnam (group_name g))).length < calls) :
    ∃ st, freenas_search_groups h = some st ∧
      (search_consume calls st entry).1.map display_view
        = ((first ++ later.flatten).filter (fun g => !h.getpwnam (group_name g))).map
            (group_view h) := by
  refine ⟨_, by simp [freenas_search_groups, call_dispatcher_stream, hopen, hstream,
    rpc_call_result]; rfl, ?_⟩
  exact group_consume_spec h first later entry calls hne hnames hcalls

/-- C7 as amended, at the groups `staff` and `operator` on a host with a local
user `operator`: only `staff` is handed out. -/
theorem group_search_skips_local_user_names_witness :
    (∃ st, freenas_search_groups scenario.operator_stream = some st ∧
      (search_consume 5 st samba.blank_entry).1.map display_view
        = (([scenario.staff, scenario.operator] ++ ([] : List (List json_t)).flatten).filter
            (fun g => !scenario.operator_stream.getpwnam (group_name g))).map
            (group_view scenario.operator_stream)) ∧
    (([scenario.staff, scenario.operator] ++ ([] : List (List json_t)).flatten).filter
        (fun g => !scenario.operator_stream.getpwnam (group_name g))).map
        (group_view scenario.operator_stream)
      = [group_view scenario.operator_stream scenario.staff] :=
  ⟨group_search_skips_local_user_names scenario.operator_stream
      [scenario.staff, scenario.operator] [] samba.blank_entry 5 rfl rfl (by simp)
      (by
        intro g hg
        simp only [List.flatten_nil, List.append_nil, List.mem_cons, List.mem_singleton,
          List.not_mem_nil, or_false] at hg
        rcases hg with rfl | rfl <;> decide)
      (by decide),
    rfl⟩

/-! ## Statements about the group membership query -/

/-- Membership in `first_occurrences` is membership in the list. -/
theorem mem_first_occurrences {α : Type} [DecidableEq α] (l : List α) (a : α) :
    a ∈ first_occurrences l ↔ a ∈ l := by
  induction l with
  | nil => simp [first_occurrences]
  | cons x xs ih =>
    simp only [first_occurrences, List.mem_cons, List.mem_filter, ih, decide_eq_true_eq]
    by_cases hax : a = x
    · simp [hax]
    · simp [hax]

/-- The list `first_occurrences l` has no duplicates. -/
theorem nodup_first_occurrences {α : Type} [DecidableEq α] (l : List α) :
    (first_occurrences l).Nodup := by
  induction l with
  | nil => simp [first_occurrences]
  | cons x xs ih =>
    simp only [first_occurrences, List.nodup_cons, List.mem_filter, decide_eq_true_eq,
      ne_eq, not_true_eq_false, and_false, not_false_eq_true, true_and]
    exact ih.filter _

/-- Adding the elements of a list one by one, each unless already present,
appends their first occurrences that are not in the array yet. -/
theorem foldl_add_unique {α : Type} [DecidableEq α] (l : List α) :
    ∀ acc : List α,
      l.foldl (fun a x => if x ∈ a then a else a ++ [x]) acc
        = acc ++ (first_occurrences l).filter (fun y => decide (y ∉ acc)) := by
  induction l with
  | nil => simp [first_occurrences]
  | cons x xs ih =>
    intro acc
    simp only [List.foldl_cons, first_occurrences]
    rw [ih]
    by_cases hx : x ∈ acc
    · simp only [hx, if_true, List.filter_cons, not_true_eq_false, decide_False,
        Bool.false_eq_true, if_false, List.filter_filter]
      congr 1
      apply List.filter_congr
      intro y _
      by_cases hy : y ∈ acc
      · simp [hy]
      · have hyx : y ≠ x := fun heq => hy (heq ▸ hx)
        simp [hy, hyx]
    · simp only [hx, if_false, List.filter_cons, not_false_eq_true, decide_True, if_true,
        List.filter_filter, List.append_assoc, List.singleton_append]
      congr 2
      apply List.filter_congr
      intro y _
      by_cases hy : y ∈ acc
      · simp [hy]
      · by_cases hyx : y = x
        · simp [hyx]
        · simp [hy, hyx]

/-- First occurrences commute with a map that is injective on the list. -/
theorem first_occurrences_map {α β : Type} [DecidableEq α] [DecidableEq β] (f : α → β)
    (l : List α) (hinj : ∀ a ∈ l, ∀ b ∈ l, f a = f b → a = b) :
    first_occurrences (l.map f) = (first_occurrences l).map f := by
  induction l with
  | nil => simp [first_occurrences]
  | cons x xs ih =>
    have hxs : ∀ a ∈ xs, ∀ b ∈ xs, f a = f b → a = b := fun a ha b hb =>
      hinj a (List.mem_cons_of_mem x ha) b (List.mem_cons_of_mem x hb)
    simp only [List.map_cons, first_occurrences, ih hxs, List.filter_map, List.cons.injEq,
      true_and]
    congr 1
    apply List.filter_congr
    intro y hy
    have hyxs : y ∈ xs := (mem_first_occurrences xs y).1 hy
    by_cases hyx : y = x
    · simp [hyx]
    · have hne : f y ≠ f x := fun heq =>
        hyx (hinj y (List.mem_cons_of_mem x hyxs) x (List.mem_cons_self x xs) heq)
      simp [hyx, hne]

/-- The loop of `freenas_enum_group_memberships` fills the two arrays
independently: the gid array from the gids, the SID array from their SIDs. -/
theorem foldl_enum_group_step (h : Host) (items : List json_t) :
    ∀ acc : List dom_sid × List Nat,
      items.foldl (enum_group_step h) acc
        = ((items.map (fun it => group_sid h (json_gid it))).foldl
              (fun a x => if x ∈ a then a else a ++ [x]) acc.1,
            (items.map json_gid).foldl (fun a x => if x ∈ a then a else a ++ [x]) acc.2) := by
  induction items with
  | nil => intro acc; rfl
  | cons it rest ih =>
    intro acc
    simp only [List.foldl_cons, List.map_cons]
    rw [ih]
    rfl

/-- C8 as amended: when the membership query is answered with an array,
`freenas_enum_group_memberships` returns `NT_STATUS_OK`; the gid list is the
list of distinct gids of the response in first-occurrence order and has no
duplicates, and its length is the reported group count; and when the gids of
the response have pairwise distinct group SIDs (the gid-to-SID mapping of the
host is injective on them), the SID list has the length of the gid list and
its i-th SID is the group SID computed from the i-th gid. -/
theorem enum_group_memberships_deduplicates (h : Host) (user : samu)
    (result : Option json_t) (items : List json_t)
    (hopen : h.dispatcher_open dscached_socket = true)
    (hreply : h.dispatcher_call_sync "dscached.account.getgroupmembership"
      (json_pack_sb user.username true) result
        = (rpc_call_status.RPC_CALL_DONE, some (json_t.array items))) :
    (freenas_enum_group_memberships h user result).status = NTSTATUS.NT_STATUS_OK ∧
    (freenas_enum_group_memberships h user result).pp_gids
      = first_occurrences (items.map json_gid) ∧
    (freenas_enum_group_memberships h user result).pp_gids.Nodup ∧
    (∀ g, g ∈ (freenas_enum_group_memberships h user result).pp_gids
      ↔ g ∈ items.map json_gid) ∧
    (freenas_enum_group_memberships h user result).p_num_groups
      = (freenas_enum_group_memberships h user result).pp_gids.length ∧
    ((∀ a ∈ items.map json_gid, ∀ b ∈ items.map json_gid,
        group_sid h a = group_sid h b → a = b) →
      (freenas_enum_group_memberships h user result).pp_sids
        = (freenas_enum_group_memberships h user result).pp_gids.map (group_sid h) ∧
      (freenas_enum_group_memberships h user result).pp_sids.length
        = (freenas_enum_group_memberships h user result).pp_gids.length) := by
  have hcall : pdb_freenas.call_dispatcher h "dscached.account.getgroupmembership"
      (json_pack_sb user.username true) result
      = { ret := 0, result := some (json_t.array items),
          sent := [("dscached.account.getgroupmembership",
            json_pack_sb user.username true)] } := by
    simp [pdb_freenas.call_dispatcher, hopen, hreply]
  have hout : freenas_enum_group_memberships h user result
      = { status := NTSTATUS.NT_STATUS_OK
          pp_sids := first_occurrences (items.map (fun it => group_sid h (json_gid it)))
          pp_gids := first_occurrences (items.map json_gid)
          p_num_groups := (first_occurrences (items.map json_gid)).length
          sent := [("dscached.account.getgroupmembership",
            json_pack_sb user.username true)] } := by
    unfold freenas_enum_group_memberships
    simp only [hcall, json_is_null, json_is_array, json_array_items, foldl_enum_group_step,
      foldl_add_unique]
    simp
  rw [hout]
  refine ⟨rfl, rfl, nodup_first_occurrences _, fun g => mem_first_occurrences _ g, rfl, ?_⟩
  intro hinj
  have hsids : first_occurrences (items.map (fun it => group_sid h (json_gid it)))
      = (first_occurrences (items.map json_gid)).map (group_sid h) := by
    rw [← first_occurrences_map (group_sid h) (items.map json_gid) hinj, List.map_map]
    rfl
  refine ⟨hsids, ?_⟩
  show (first_occurrences (items.map (fun it => group_sid h (json_gid it)))).length = _
  rw [hsids, List.length_map]

/-- C8 as amended, at the response `[10, 20, 10]` on the example host: the
gid list is `[10, 20]`, the reported count is 2, and the SID list holds the
two SIDs of these gids. -/
theorem enum_group_memberships_deduplicates_witness :
    (freenas_enum_group_memberships scenario.repeated_gids scenario.alice_samu none).status
      = NTSTATUS.NT_STATUS_OK ∧
    (freenas_enum_group_memberships scenario.repeated_gids scenario.alice_samu none).pp_gids
      = [10, 20] ∧
    (freenas_enum_group_memberships scenario.repeated_gids scenario.alice_samu
      none).p_num_groups = 2 ∧
    (freenas_enum_group_memberships scenario.repeated_gids scenario.alice_samu none).pp_sids
      = [group_sid scenario.repeated_gids 10, group_sid scenario.repeated_gids 20] ∧
    (freenas_enum_group_memberships scenario.repeated_gids scenario.alice_samu none).pp_sids
      = [scenario.domain_sid 1021, scenario.domain_sid 1041] := by
  have hspec := enum_group_memberships_deduplicates scenario.repeated_gids
    scenario.alice_samu none [json_t.integer 10, json_t.integer 20, json_t.integer 10] rfl rfl
  obtain ⟨hstatus, hgids, _, _, hcount, hpar⟩ := hspec
  have hgids1 : (freenas_enum_group_memberships scenario.repeated_gids scenario.alice_samu
      none).pp_gids = [10, 20] := by
    rw [hgids]
    decide
  have hsids := (hpar (by decide)).1
  rw [hgids1] at hsids hcount
  exact ⟨hstatus, hgids1, hcount, hsids, by rw [hsids]; decide⟩

/-- On the example host the gid-to-SID mapping is injective on the gids below
2147483148, for which `gid * 2 + 1000` does not wrap. -/
theorem example_group_sid_injective (up : Bool)
    (reply : String → Option json_t → rpc_call_status × Option json_t)
    (stream : Option rpc_call_t) (guest : Option String) (users groups : List String)
    (sid_text : List (String × dom_sid)) (a b : Nat)
    (ha : a < 2147483148) (hb : b < 2147483148)
    (hsid : group_sid (samba.host up reply stream guest users groups sid_text) a
      = group_sid (samba.host up reply stream guest users groups sid_text) b) :
    a = b := by
  have hlor : ∀ k : Nat, (2 * k) ||| 1 = 2 * k + 1 := by
    intro k
    have hbit := Nat.lor_bit false k true 0
    simp [Nat.bit] at hbit
    simpa using hbit
  have hrid : ∀ g : Nat, g < 2147483148 →
      samba.algorithmic_pdb_gid_to_group_rid g = 2 * (g + 500) + 1 := by
    intro g hg
    unfold samba.algorithmic_pdb_gid_to_group_rid
    have hmod : (g * 2 + 1000) % 4294967296 = 2 * (g + 500) := by omega
    rw [hmod, hlor]
  simp only [group_sid, samba.host, samba.sid_compose, samba.machine_sid, dom_sid.mk.injEq,
    true_and] at hsid
  have hrids := List.append_inj_right hsid rfl
  simp only [List.cons.injEq, and_true] at hrids
  rw [hrid a ha, hrid b hb] at hrids
  omega

/-- A JSON integer in the range of `gid_t` is read back as that gid. -/
theorem json_gid_of_representable (g : Nat) (hg : g < 4294967296) :
    json_gid (json_t.integer (g : Int)) = g := by
  simp only [json_gid, c_uint32, c_int, json_integer_value]
  omega

/-- Whatever the arithmetic of the mapper: when the group RIDs of the 32-bit
gids are 32-bit values and some 32-bit RID is not among them (for example the
RID of a user), two distinct 32-bit gids have the same group RID. -/
theorem group_rids_collide (h : Host)
    (hrange : ∀ g, g < 4294967296 → h.algorithmic_pdb_gid_to_group_rid g < 4294967296)
    (r : Nat) (hr : r < 4294967296)
    (hfree : ∀ g, g < 4294967296 → h.algorithmic_pdb_gid_to_group_rid g ≠ r) :
    ∃ g1 g2, g1 < 4294967296 ∧ g2 < 4294967296 ∧ g1 ≠ g2 ∧
      h.algorithmic_pdb_gid_to_group_rid g1 = h.algorithmic_pdb_gid_to_group_rid g2 := by
  by_contra hnone
  let f : Fin 4294967296 → Fin 4294967296 :=
    fun g => ⟨h.algorithmic_pdb_gid_to_group_rid g.1, hrange g.1 g.2⟩
  have hinj : Function.Injective f := by
    intro a b hab
    have hval : h.algorithmic_pdb_gid_to_group_rid a.1
        = h.algorithmic_pdb_gid_to_group_rid b.1 := congrArg Fin.val hab
    by_contra hne
    exact hnone ⟨a.1, b.1, a.2, b.2, fun heq => hne (Fin.ext heq), hval⟩
  obtain ⟨g, hg⟩ := (Finite.injective_iff_surjective.1 hinj) ⟨r, hr⟩
  exact hfree g.1 g.2 (congrArg Fin.val hg)

/-- Two distinct gids with the same group RID, returned together by the
membership query, leave the two arrays out of step: the gid list holds both
gids and the reported count is 2, the SID list holds one SID. -/
theorem colliding_gids_misalign (h : Host) (user : samu) (result : Option json_t)
    (g1 g2 : Nat) (hg1 : g1 < 4294967296) (hg2 : g2 < 4294967296) (hne : g1 ≠ g2)
    (hrid : h.algorithmic_pdb_gid_to_group_rid g1 = h.algorithmic_pdb_gid_to_group_rid g2)
    (hopen : h.dispatcher_open dscached_socket = true)
    (hreply : h.dispatcher_call_sync "dscached.account.getgroupmembership"
      (json_pack_sb user.username true) result
        = (rpc_call_status.RPC_CALL_DONE,
            some (json_t.array [json_t.integer (g1 : Int), json_t.integer (g2 : Int)]))) :
    (freenas_enum_group_memberships h user result).pp_gids = [g1, g2] ∧
    (freenas_enum_group_memberships h user result).p_num_groups = 2 ∧
    (freenas_enum_group_memberships h user result).pp_sids = [group_sid h g1] := by
  have hcall : pdb_freenas.call_dispatcher h "dscached.account.getgroupmembership"
      (json_pack_sb user.username true) result
      = { ret := 0
          result := some (json_t.array [json_t.integer (g1 : Int), json_t.integer (g2 : Int)])
          sent := [("dscached.account.getgroupmembership",
            json_pack_sb user.username true)] } := by
    simp [pdb_freenas.call_dispatcher, hopen, hreply]
  have hj1 := json_gid_of_representable g1 hg1
  have hj2 := json_gid_of_representable g2 hg2
  have hsid : group_sid h g2 = group_sid h g1 := by
    simp only [group_sid, hrid]
  have hne2 : ¬ g2 = g1 := fun heq => hne heq.symm
  unfold freenas_enum_group_memberships
  have hstep : ∀ (acc : List dom_sid × List Nat) (item : json_t),
      pdb_freenas.enum_group_step h acc item
        = (add_sid_to_array_unique (group_sid h (json_gid item)) acc.1,
            add_gid_to_array_unique (json_gid item) acc.2) := fun _ _ => rfl
  have hrun : [json_t.integer (g1 : Int), json_t.integer (g2 : Int)].foldl
      (pdb_freenas.enum_group_step h) ([], []) = ([group_sid h g1], [g1, g2]) := by
    simp only [List.foldl_cons, List.foldl_nil, hstep, hj1, hj2, hsid,
      add_sid_to_array_unique, add_gid_to_array_unique]
    simp [hne2]
  simp only [hcall, json_is_null, json_is_array, json_array_items, hrun]
  simp

/-- C8 refuted: on the example host the membership query answers with the
gids 10 and 2147483658, which have the same group SID. The gid list holds both
gids and the reported count is 2, but the SID list holds a single SID: the
lists do not have the same length. -/
theorem enum_group_memberships_sid_list_shorter :
    (freenas_enum_group_memberships scenario.colliding_gids scenario.alice_samu none).status
      = NTSTATUS.NT_STATUS_OK ∧
    (freenas_enum_group_memberships scenario.colliding_gids scenario.alice_samu none).pp_gids
      = [10, 2147483658] ∧
    (freenas_enum_group_memberships scenario.colliding_gids scenario.alice_samu
      none).p_num_groups = 2 ∧
    (freenas_enum_group_memberships scenario.colliding_gids scenario.alice_samu none).pp_sids
      = [scenario.domain_sid 1021] ∧
    (freenas_enum_group_memberships scenario.colliding_gids scenario.alice_samu
      none).pp_sids.length
      ≠ (freenas_enum_group_memberships scenario.colliding_gids scenario.alice_samu
          none).pp_gids.length := by
  refine ⟨by decide, by decide, by decide, by decide, by decide⟩

/-! ## Statements about the batch translations -/

/-- The response loop of `idmap_freenas_unixids_to_sids`, started at index
`done.length` on a response no longer than the entries left: element by
element the response is stored into the entries, the others are kept. -/
theorem foldl_unixids_store (h : Host) (resp : List json_t) :
    ∀ (done todo : List id_map), resp.length ≤ todo.length →
      (resp.enumFrom done.length).foldl (idmap_freenas.unixids_store h) (some (done ++ todo))
        = some (done ++ (List.zipWith (stored_sid h) todo resp ++ todo.drop resp.length)) := by
  induction resp with
  | nil =>
    intro done todo _
    simp
  | cons v vs ih =>
    intro done todo hlen
    rcases todo with _ | ⟨m, rest⟩
    · simp at hlen
    · have hget : (done ++ m :: rest).get? done.length = some m := by
        rw [List.get?_eq_getElem?, List.getElem?_append_right (Nat.le_refl _)]
        simp
      have hset : (done ++ m :: rest).set done.length (stored_sid h m v)
          = (done ++ [stored_sid h m v]) ++ rest := by
        simp [List.set_append_right]
      have hstep : idmap_freenas.unixids_store h (some (done ++ m :: rest)) (done.length, v)
          = some ((done ++ [stored_sid h m v]) ++ rest) := by
        simp only [idmap_freenas.unixids_store, hget]
        rw [← hset]
        rfl
      have hlen1 : vs.length ≤ rest.length := by simpa using hlen
      have hih := ih (done ++ [stored_sid h m v]) rest hlen1
      simp only [List.length_append, List.length_singleton] at hih
      simp only [List.enumFrom_cons, List.foldl_cons, hstep, hih]
      simp

/-- The request built by `idmap_freenas_unixids_to_sids` does not depend on
the status of the entries. -/
theorem unixids_request_reset (ids : List id_map) :
    idmap_freenas.unixids_request (reset_status ids) = idmap_freenas.unixids_request ids := by
  simp only [idmap_freenas.unixids_request, reset_status, List.filterMap_map]
  congr 1

/-- C9 refuted: for the entries `(BOTH, 5)` and `(UID, 7)` the request array
holds the single pair `["UID", 7]`, so it is shorter than the input, and the
one SID of the response is stored into entry 0, the `BOTH` entry, whose pair
was never sent; the `UID` entry, whose pair was request 0, stays unknown. -/
theorem unixids_to_sids_shifts_after_unknown_kind :
    idmap_freenas.unixids_request
        [scenario.entry_of id_type.ID_TYPE_BOTH 5, scenario.entry_of id_type.ID_TYPE_UID 7]
      = json_t.array [json_pack_si "UID" 7] ∧
    (idmap_freenas.idmap_freenas_unixids_to_sids scenario.one_sid
        [scenario.entry_of id_type.ID_TYPE_BOTH 5, scenario.entry_of id_type.ID_TYPE_UID 7]
        none).map (fun o => (o.status, o.ids))
      = some (NTSTATUS.NT_STATUS_OK,
          [{ sid := scenario.domain_sid 1014
             xid := { id := 5, type := id_type.ID_TYPE_BOTH }
             status := id_mapping.ID_MAPPED },
           { sid := { sid_rev_num := 0, id_auth := 0, sub_auths := [] }
             xid := { id := 7, type := id_type.ID_TYPE_UID }
             status := id_mapping.ID_UNKNOWN }]) := by
  exact ⟨rfl, by decide⟩

/-- For entries of kind UID or GID the `switch` of
`idmap_freenas_unixids_to_sids` appends one pair per entry: the request
elements are, index by index, the pairs of the entries. -/
theorem filterMap_unixid_request (ids : List id_map)
    (hkinds : ∀ m ∈ ids, m.xid.type = id_type.ID_TYPE_UID ∨ m.xid.type = id_type.ID_TYPE_GID) :
    (ids.filterMap idmap_freenas.unixid_request).map some
      = ids.map idmap_freenas.unixid_request := by
  induction ids with
  | nil => rfl
  | cons m rest ih =>
    have hm := hkinds m (List.mem_cons_self m rest)
    have hrest := ih (fun x hx => hkinds x (List.mem_cons_of_mem m hx))
    rcases hm with hm | hm
    · simp only [List.filterMap_cons, idmap_freenas.unixid_request, hm, List.map_cons, hrest]
    · simp only [List.filterMap_cons, idmap_freenas.unixid_request, hm, List.map_cons, hrest]

/-- C9 as amended: for every list of entries of kind UID or GID, the request
array has the length of the list with the pair of entry k at index k; when the
daemon answers with an array no longer than the list, the k-th element of the
response is stored into entry k, every entry beyond the response keeps status
unknown, and the batch returns `NT_STATUS_OK`. -/
theorem unixids_to_sids_index_aligned (h : Host) (ids : List id_map)
    (result : Option json_t) (resp : List json_t)
    (hkinds : ∀ m ∈ ids, m.xid.type = id_type.ID_TYPE_UID ∨ m.xid.type = id_type.ID_TYPE_GID)
    (hopen : h.dispatcher_open dscached_socket = true)
    (hreply : h.dispatcher_call_sync "dscached.idmap.unixids_to_sids"
      (json_pack_o (idmap_freenas.unixids_request ids)) result
        = (rpc_call_status.RPC_CALL_DONE, some (json_t.array resp)))
    (hlen : resp.length ≤ ids.length) :
    (ids.filterMap idmap_freenas.unixid_request).map some
      = ids.map idmap_freenas.unixid_request ∧
    (ids.filterMap idmap_freenas.unixid_request).length = ids.length ∧
    (idmap_freenas.idmap_freenas_unixids_to_sids h ids result).map
        (fun o => (o.status, o.ids, o.sent))
      = some (NTSTATUS.NT_STATUS_OK,
          List.zipWith (stored_sid h) (reset_status ids) resp
            ++ (reset_status ids).drop resp.length,
          [("dscached.idmap.unixids_to_sids",
            json_pack_o (json_t.array (ids.filterMap idmap_freenas.unixid_request)))]) := by
  have hsome := filterMap_unixid_request ids hkinds
  refine ⟨hsome, ?_, ?_⟩
  · have := congrArg List.length hsome
    simpa using this
  · have hcall : idmap_freenas.call_dispatcher h "dscached.idmap.unixids_to_sids"
        (json_pack_o (idmap_freenas.unixids_request ids)) result
        = { ret := 0, result := some (json_t.array resp),
            sent := [("dscached.idmap.unixids_to_sids",
              json_pack_o (idmap_freenas.unixids_request ids))] } := by
      simp [idmap_freenas.call_dispatcher, hopen, hreply]
    have hfold := foldl_unixids_store h resp [] (reset_status ids)
      (by simpa [reset_status] using hlen)
    simp only [List.length_nil, List.nil_append] at hfold
    unfold idmap_freenas.idmap_freenas_unixids_to_sids
    have hreq := unixids_request_reset ids
    simp only [reset_status] at hreq hfold
    simp only [hreq, hcall, json_array_items, List.enum, hfold]
    rfl

/-- C9 as amended, at the entries `(UID, 7)` and `(GID, 9)` with a response
that covers the first entry only: the SID is stored into entry 0, entry 1
stays unknown. -/
theorem unixids_to_sids_index_aligned_witness :
    ([scenario.entry_of id_type.ID_TYPE_UID 7,
        scenario.entry_of id_type.ID_TYPE_GID 9].filterMap idmap_freenas.unixid_request).map some
      = [scenario.entry_of id_type.ID_TYPE_UID 7,
          scenario.entry_of id_type.ID_TYPE_GID 9].map idmap_freenas.unixid_request ∧
    ([scenario.entry_of id_type.ID_TYPE_UID 7,
        scenario.entry_of id_type.ID_TYPE_GID 9].filterMap idmap_freenas.unixid_request).length
      = [scenario.entry_of id_type.ID_TYPE_UID 7,
          scenario.entry_of id_type.ID_TYPE_GID 9].length ∧
    (idmap_freenas.idmap_freenas_unixids_to_sids scenario.one_sid
        [scenario.entry_of id_type.ID_TYPE_UID 7, scenario.entry_of id_type.ID_TYPE_GID 9]
        none).map (fun o => (o.status, o.ids, o.sent))
      = some (NTSTATUS.NT_STATUS_OK,
          List.zipWith (stored_sid scenario.one_sid)
              (reset_status [scenario.entry_of id_type.ID_TYPE_UID 7,
                scenario.entry_of id_type.ID_TYPE_GID 9])
              [json_t.string scenario.sid_1014_text]
            ++ (reset_status [scenario.entry_of id_type.ID_TYPE_UID 7,
                scenario.entry_of id_type.ID_TYPE_GID 9]).drop
                  [json_t.string scenario.sid_1014_text].length,
          [("dscached.idmap.unixids_to_sids",
            json_pack_o (json_t.array
              ([scenario.entry_of id_type.ID_TYPE_UID 7,
                scenario.entry_of id_type.ID_TYPE_GID 9].filterMap
                  idmap_freenas.unixid_request)))]) :=
  unixids_to_sids_index_aligned scenario.one_sid
    [scenario.entry_of id_type.ID_TYPE_UID 7, scenario.entry_of id_type.ID_TYPE_GID 9] none
    [json_t.string scenario.sid_1014_text] (by decide) rfl rfl (by decide)

/-- Whenever `idmap_freenas_unixids_to_sids` returns, it returns
`NT_STATUS_OK`: the value of `err` is never looked at. -/
theorem unixids_to_sids_status_always_ok (h : Host) (ids : List id_map)
    (result : Option json_t) (out : idmap_freenas.idmap_outcome)
    (hout : idmap_freenas.idmap_freenas_unixids_to_sids h ids result = some out) :
    out.status = NTSTATUS.NT_STATUS_OK := by
  unfold idmap_freenas.idmap_freenas_unixids_to_sids at hout
  simp only [] at hout
  split at hout
  · cases hout
  · simp only [Option.some.injEq] at hout
    rw [← hout]

/-- Whenever `idmap_freenas_sids_to_unixids` returns, it returns
`NT_STATUS_OK`: the value of `err` is never looked at. -/
theorem sids_to_unixids_status_always_ok (h : Host) (ids : List id_map)
    (result : Option json_t) (type0 : String) (id0 : Int)
    (out : idmap_freenas.idmap_outcome)
    (hout : idmap_freenas.idmap_freenas_sids_to_unixids h ids result type0 id0 = some out) :
    out.status = NTSTATUS.NT_STATUS_OK := by
  unfold idmap_freenas.idmap_freenas_sids_to_unixids at hout
  simp only [] at hout
  split at hout
  · cases hout
  · simp only [Option.some.injEq] at hout
    rw [← hout]

/-- C10 at failing inputs: with the daemon unreachable, and with the daemon
answering error code 5 (`EIO`), `call_dispatcher` returns -1, yet
`idmap_freenas_unixids_to_sids` and `idmap_freenas_sids_to_unixids` return
`NT_STATUS_OK`, with every entry left at status unknown. -/
theorem idmap_batches_return_ok_on_rpc_failure :
    (idmap_freenas.call_dispatcher scenario.down "dscached.idmap.unixids_to_sids"
        (json_pack_o (idmap_freenas.unixids_request
          [scenario.entry_of id_type.ID_TYPE_UID 1000])) none).ret = -1 ∧
    (idmap_freenas.idmap_freenas_unixids_to_sids scenario.down
        [scenario.entry_of id_type.ID_TYPE_UID 1000] none).map
        (fun o => (o.status, o.ids.map (fun m => m.status)))
      = some (NTSTATUS.NT_STATUS_OK, [id_mapping.ID_UNKNOWN]) ∧
    (idmap_freenas.call_dispatcher (scenario.failing 5) "dscached.idmap.unixids_to_sids"
        (json_pack_o (idmap_freenas.unixids_request
          [scenario.entry_of id_type.ID_TYPE_UID 1000])) none).ret = -1 ∧
    (idmap_freenas.idmap_freenas_unixids_to_sids (scenario.failing 5)
        [scenario.entry_of id_type.ID_TYPE_UID 1000] none).map
        (fun o => (o.status, o.ids.map (fun m => m.status)))
      = some (NTSTATUS.NT_STATUS_OK, [id_mapping.ID_UNKNOWN]) ∧
    (idmap_freenas.idmap_freenas_sids_to_unixids scenario.down
        [scenario.entry_of_sid (scenario.domain_sid 3000)] none "" 0).map
        (fun o => (o.status, o.ids.map (fun m => m.status)))
      = some (NTSTATUS.NT_STATUS_OK, [id_mapping.ID_UNKNOWN]) ∧
    (idmap_freenas.idmap_freenas_sids_to_unixids (scenario.failing 5)
        [scenario.entry_of_sid (scenario.domain_sid 3000)] none "" 0).map
        (fun o => (o.status, o.ids.map (fun m => m.status)))
      = some (NTSTATUS.NT_STATUS_OK, [id_mapping.ID_UNKNOWN]) := by
  refine ⟨by decide, by decide, by decide, by decide, by decide, by decide⟩

/-! ## Statements about the algorithmic mapper -/

/-- No mapper into 32-bit RIDs, whatever its arithmetic, is exact on every
32-bit uid and keeps the group RIDs apart from the user RIDs: if every 32-bit
uid has a 32-bit RID that maps back to it and is classified as a user RID,
then every 32-bit RID is classified as a user RID, the group RIDs included. -/
theorem exact_user_mapping_leaves_no_group_rid (h : Host)
    (hrange : ∀ u, u < 4294967296 → h.algorithmic_pdb_uid_to_user_rid u < 4294967296)
    (hback : ∀ u, u < 4294967296 →
      h.algorithmic_pdb_user_rid_to_uid (h.algorithmic_pdb_uid_to_user_rid u) = u)
    (huser : ∀ u, u < 4294967296 →
      h.algorithmic_pdb_rid_is_user (h.algorithmic_pdb_uid_to_user_rid u) = true)
    (g : Nat) (hg : h.algorithmic_pdb_gid_to_group_rid g < 4294967296) :
    h.algorithmic_pdb_rid_is_user (h.algorithmic_pdb_gid_to_group_rid g) = true := by
  let f : Fin 4294967296 → Fin 4294967296 :=
    fun u => ⟨h.algorithmic_pdb_uid_to_user_rid u.1, hrange u.1 u.2⟩
  have hinj : Function.Injective f := by
    intro a b hab
    have hval : h.algorithmic_pdb_uid_to_user_rid a.1 = h.algorithmic_pdb_uid_to_user_rid b.1 :=
      congrArg Fin.val hab
    have ha := hback a.1 a.2
    have hb := hback b.1 b.2
    rw [hval, hb] at ha
    exact Fin.ext ha.symm
  have hsurj : Function.Surjective f := Finite.injective_iff_surjective.1 hinj
  obtain ⟨u, hu⟩ := hsurj ⟨h.algorithmic_pdb_gid_to_group_rid g, hg⟩
  have hval : h.algorithmic_pdb_uid_to_user_rid u.1 = h.algorithmic_pdb_gid_to_group_rid g :=
    congrArg Fin.val hu
  rw [← hval]
  exact huser u.1 u.2

